import Mathlib

/-!
# Verification of the CSG reconstruction core (csgplayground)

Shallow embedding, in Lean 4, of the parts of the repository that the frozen
claims C1..C10 are about:

* the CSG expression-tree model and the CSG-node creator's `mutate` /
  `crossover` / `create` operators (`src/csgnode_evo.cpp`),
* the per-clique node computation `computeNodesForCliques`
  (`src/csgnode_evo.cpp`),
* the pipeline driver `PipelineRunner::run` / `load`
  (`src/optimizer_pipeline_runner.cpp`),
* the primitive model with `createBoxPrimitive`, `createCylinderPrimitive`,
  `createSpherePrimitive`, the primitive-set creator (`create`,
  `createPrimitive`, `mutate`, `mutatePrimitive`, `getManifold`, ...) and the
  primitive-set ranker `rank2` (`src/primitive_extraction.cpp`).

Modelling conventions, used consistently below:

* C++ `double` scalars are modelled as exact rationals `ℚ`.  Square roots
  (`norm()`) are avoided by tracking squared lengths (`normSq`, `distSq`);
  every comparison of norms in the source is monotonically equivalent to the
  corresponding comparison of squared norms, and where the source stores a
  length (e.g. a cylinder height) the embedding stores its square and the
  accompanying theorem states the property of the square.
* `std::mt19937`/`std::default_random_engine` draws are modelled by explicit
  oracle parameters: each random draw of the source becomes an explicit
  argument (or a field of an oracle structure), universally quantified in the
  theorems.  A uniform draw over `candidates` of size `k` is modelled as
  `pick % k` for an arbitrary `pick : Nat`, which reaches exactly the indices
  the source can reach.
* External code that is not part of the given sources (CGAL, Eigen internals,
  implicit-function evaluation, `computeGeometryScore`, file I/O, ...) is
  abstracted as explicit function parameters or oracle fields.
-/

/-! ## Rational 3-vectors (Eigen::Vector3d) -/

/-- A 3-vector with rational coordinates, modelling `Eigen::Vector3d`. -/
structure Vec3 where
  x : ℚ
  y : ℚ
  z : ℚ
deriving DecidableEq, Repr

namespace Vec3

/-- Componentwise addition. -/
def add (a b : Vec3) : Vec3 := ⟨a.x + b.x, a.y + b.y, a.z + b.z⟩

/-- Componentwise subtraction. -/
def sub (a b : Vec3) : Vec3 := ⟨a.x - b.x, a.y - b.y, a.z - b.z⟩

/-- Scalar multiplication. -/
def smul (c : ℚ) (a : Vec3) : Vec3 := ⟨c * a.x, c * a.y, c * a.z⟩

/-- Negation (`v * -1.0` in the source). -/
def neg (a : Vec3) : Vec3 := ⟨-a.x, -a.y, -a.z⟩

/-- Dot product (`Eigen .dot`). -/
def dot (a b : Vec3) : ℚ := a.x * b.x + a.y * b.y + a.z * b.z

/-- Squared Euclidean norm; the source's `v.norm()` is `Real.sqrt (normSq v)`. -/
def normSq (a : Vec3) : ℚ := dot a a

/-- Squared distance; the source's `(a - b).norm()` is `Real.sqrt (distSq a b)`. -/
def distSq (a b : Vec3) : ℚ := normSq (sub a b)

/-- The zero vector (`Eigen::Vector3d(0, 0, 0)`). -/
def zero : Vec3 := ⟨0, 0, 0⟩

/-- Componentwise minimum, used for `colwise().minCoeff()`. -/
def cmin (a b : Vec3) : Vec3 := ⟨min a.x b.x, min a.y b.y, min a.z b.z⟩

/-- Componentwise maximum, used for `colwise().maxCoeff()`. -/
def cmax (a b : Vec3) : Vec3 := ⟨max a.x b.x, max a.y b.y, max a.z b.z⟩

end Vec3

/-- The comparison `nu.dot(g.normalized()) > c` of the source, in exact
rational arithmetic (for a threshold `c ≥ 0`): `nu · g / ‖g‖ > c` holds for a
nonzero `g` iff `nu · g > 0` and `(nu · g)² > c² * ‖g‖²`.  For `g = 0` the
source's `normalized()` yields NaN and every comparison with it is false, which
matches this definition (`0 < 0` fails). -/
def dotNormalizedGt (nu g : Vec3) (c : ℚ) : Prop :=
  0 < Vec3.dot nu g ∧ c ^ 2 * Vec3.normSq g < (Vec3.dot nu g) ^ 2

instance (nu g : Vec3) (c : ℚ) : Decidable (dotNormalizedGt nu g c) := by
  unfold dotNormalizedGt; infer_instance

/-! ## CSG expression trees (`lmu::CSGNode`) -/

/-- CSG operation types (`lmu::CSGNodeOperationType`), restricted to the
constructors the embedded operations use. -/
inductive OpType where
  | union
  | inter
  | diff
  | compl
  | noop
deriving DecidableEq, Repr

/-- A CSG expression tree: internal nodes hold an operator and a child list,
leaves hold a geometry reference, here identified by a numeric id standing for
the `ImplicitFunctionPtr` (`lmu::CSGNodeGeometry`). -/
inductive CSGNode where
  | geo (fid : Nat)
  | op (t : OpType) (children : List CSGNode)
deriving Repr

mutual

/-- Decidable equality on CSG trees (derived by hand: `CSGNode` nests through
`List`). -/
def nodeDecEq : (a b : CSGNode) → Decidable (a = b)
  | .geo x, .geo y =>
    if h : x = y then .isTrue (by rw [h]) else .isFalse (by simp [h])
  | .geo _, .op _ _ => .isFalse (fun h => CSGNode.noConfusion h)
  | .op _ _, .geo _ => .isFalse (fun h => CSGNode.noConfusion h)
  | .op t cs, .op u ds =>
    if h : t = u then
      match nodeListDecEq cs ds with
      | .isTrue h2 => .isTrue (by rw [h, h2])
      | .isFalse h2 => .isFalse (by simp [h2])
    else .isFalse (by simp [h])

/-- Decidable equality on lists of CSG trees. -/
def nodeListDecEq : (as bs : List CSGNode) → Decidable (as = bs)
  | [], [] => .isTrue rfl
  | [], _ :: _ => .isFalse (fun h => List.noConfusion h)
  | _ :: _, [] => .isFalse (fun h => List.noConfusion h)
  | a :: as, b :: bs =>
    match nodeDecEq a b, nodeListDecEq as bs with
    | .isTrue h1, .isTrue h2 => .isTrue (by rw [h1, h2])
    | .isFalse h1, _ => .isFalse (by simp [h1])
    | _, .isFalse h2 => .isFalse (by simp [h2])

end

instance : DecidableEq CSGNode := nodeDecEq

namespace CSGNode

mutual

/-- Number of nodes of a CSG tree (`lmu::numNodes`; the implementation lives
outside the given sources, so this counts every node of the tree, which is the
only reading consistent with its uses). -/
def numNodes : CSGNode → Nat
  | .geo _ => 1
  | .op _ cs => 1 + numNodesList cs

/-- Total node count of a list of trees. -/
def numNodesList : List CSGNode → Nat
  | [] => 0
  | c :: cs => numNodes c + numNodesList cs

end

mutual

/-- Depth of a CSG tree (`lmu::depth`; implementation outside the given
sources).  Modelled from the spec: a leaf has depth 0 and an operation node is
one deeper than its deepest child, which is the convention under which
`create(maxDepth)` (embedded below) produces trees of depth at most
`maxDepth`. -/
def depth : CSGNode → Nat
  | .geo _ => 0
  | .op _ cs => 1 + depthList cs

/-- Maximum depth over a list of trees. -/
def depthList : List CSGNode → Nat
  | [] => 0
  | c :: cs => max (depth c) (depthList cs)

end

/-- Subtree addressing.  `nodePtrAt` of the source indexes nodes by a flat
counter whose traversal order lives outside the given sources; modelled from
the spec ("pick a uniform random node index ... replace the subtree rooted
there") by addressing a node through the path of child positions leading to
it, which ranges over exactly the subtrees a flat index can select. -/
def subtreeAtPath : CSGNode → List Nat → Option CSGNode
  | n, [] => some n
  | .geo _, _ :: _ => none
  | .op _ cs, i :: is =>
    match cs[i]? with
    | some c => subtreeAtPath c is
    | none => none

/-- Replace the subtree at the given path (the write through `nodePtrAt`).  A
path that does not address a node leaves the tree unchanged; the source never
produces such a path because indices are drawn in range. -/
def replaceAtPath : CSGNode → List Nat → CSGNode → CSGNode
  | _, [], s => s
  | .geo f, _ :: _, _ => .geo f
  | .op t cs, i :: is, s =>
    match cs[i]? with
    | some c => .op t (cs.set i (replaceAtPath c is s))
    | none => .op t cs

end CSGNode

/-! ## CSG-node creator (`lmu::CSGNodeCreator`) -/

/-- Oracle for the random draws of `CSGNodeCreator::create`: for every
position in the tree under construction (addressed by the path of child
indices from the root, most recent first) it yields the `_subtreeProb`
Bernoulli draw, the operator draw `du{1, 3}` (as an index into the three
operators union/intersection/difference) and the function-index draw. -/
structure CNOracle where
  sub : List Nat → Bool
  opd : List Nat → Fin 3
  fid : List Nat → Nat

/-- The operator denoted by the `du(_rndEngine, parmu_t{ 1, 3 })` draw of
`CSGNodeCreator::create` (the three binary set operations). -/
def opOfDraw (i : Fin 3) : OpType :=
  match i with
  | 0 => OpType.union
  | 1 => OpType.inter
  | 2 => OpType.diff

/-- One child slot of `CSGNodeCreator::create(node, maxDepth, curDepth)`
(`csgnode_evo.cpp:198-234`): with the Bernoulli draw and `curDepth < maxDepth`
the child is a fresh operation filled recursively one level deeper, otherwise
a leaf with a random function.  The child count is
`clamp(maxAllowed, minAllowed, 2) = 2` for the three binary operators, so a
filled node has exactly two children. -/
def createChild (o : CNOracle) (maxD : Int) (curD : Nat) (path : List Nat) : CSGNode :=
  if o.sub path ∧ (curD : Int) < maxD then
    CSGNode.op (opOfDraw (o.opd path))
      [createChild o maxD (curD + 1) (0 :: path), createChild o maxD (curD + 1) (1 :: path)]
  else
    CSGNode.geo (o.fid path)
termination_by (maxD - curD).toNat
decreasing_by
  all_goals
    rename_i h
    omega

/-- `CSGNodeCreator::create(int maxDepth)` (`csgnode_evo.cpp:236-258`): a
leaf for `maxDepth == 0`, otherwise a random binary operator filled by
`create(node, maxDepth, 1)`.  `maxDepth` is a C++ `int` and is kept as `Int`
because `mutate` can pass a negative remaining budget. -/
def createCSG (o : CNOracle) (maxD : Int) : CSGNode :=
  if maxD = 0 then
    CSGNode.geo (o.fid [])
  else
    CSGNode.op (opOfDraw (o.opd []))
      [createChild o maxD 1 [0], createChild o maxD 1 [1]]

/-- `CSGNodeCreator::mutate` (`csgnode_evo.cpp:100-126`).  The Bernoulli
`_createNewRandomProb` draw is the argument `createNew`; the uniform node
index is the argument `p` (as a path, see `CSGNode.replaceAtPath`).  On the
replace branch the remaining depth budget is
`_maxTreeDepth - depth(newNode)` — computed from the depth of the whole tree,
as in the source — and the subtree rooted at the chosen node is replaced by
`create(maxSubtreeDepth)`. -/
def mutateCSG (maxTreeDepth : Int) (o : CNOracle) (createNew : Bool) (p : List Nat)
    (t : CSGNode) : CSGNode :=
  if createNew then
    createCSG o maxTreeDepth
  else
    CSGNode.replaceAtPath t p (createCSG o (maxTreeDepth - (CSGNode.depth t : Int)))

/-- `CSGNodeCreator::crossover` (`csgnode_evo.cpp:128-163`).  The two uniform
node indices are the paths `p1`, `p2`; the two addressed subtrees are swapped.
The fallback mirrors the source verbatim: the first offspring falls back to
`node1`, and the second offspring also falls back to `node1` (source line
161).  Out-of-range paths (which the source cannot draw) leave the inputs
untouched. -/
def crossoverCSG (maxTreeDepth : Int) (node1 node2 : CSGNode) (p1 p2 : List Nat) :
    List CSGNode :=
  match CSGNode.subtreeAtPath node1 p1, CSGNode.subtreeAtPath node2 p2 with
  | some s1, some s2 =>
    let newNode1 := CSGNode.replaceAtPath node1 p1 s2
    let newNode2 := CSGNode.replaceAtPath node2 p2 s1
    [if (CSGNode.depth newNode1 : Int) ≤ maxTreeDepth then newNode1 else node1,
     if (CSGNode.depth newNode2 : Int) ≤ maxTreeDepth then newNode2 else node1]
  | _, _ => [node1, node2]

/-! ## CSG-node ranker and per-clique node computation
(`lmu::CSGNodeRanker::rank`, `lmu::computeNodesForCliques`) -/

/-- `CSGNodeRanker::rank` (`csgnode_evo.cpp:16-56`):
`geometryScore - lambda * numNodes(node)`.  `computeGeometryScore` is external
code and is passed in as `geoScore`; `lambda` is `log(num points)` computed by
external `std::log` and passed in as a rational. -/
def rankCSG (geoScore : CSGNode → ℚ) (lambda : ℚ) (node : CSGNode) : ℚ :=
  geoScore node - lambda * (CSGNode.numNodes node : ℚ)

/-- The four candidate trees of the two-primitive clique special case of
`computeNodesForCliques` (`csgnode_evo.cpp:321-346`), in source order:
`A∪B`, `A∩B`, `A\B`, `B\A`. -/
def candidatesForPair (f0 f1 : Nat) : List CSGNode :=
  [CSGNode.op OpType.union [CSGNode.geo f0, CSGNode.geo f1],
   CSGNode.op OpType.inter [CSGNode.geo f0, CSGNode.geo f1],
   CSGNode.op OpType.diff [CSGNode.geo f0, CSGNode.geo f1],
   CSGNode.op OpType.diff [CSGNode.geo f1, CSGNode.geo f0]]

/-- The candidate-selection loop of `computeNodesForCliques`
(`csgnode_evo.cpp:355-368`): `maxScore` starts at
`-std::numeric_limits<double>::max()` (the parameter `maxScore`, threaded
through the fold) and `bestCandidate` at null (`none`); a candidate is taken
only on strict improvement `maxScore < curScore`. -/
def pickBestLoop (rank : CSGNode → ℚ) (best : Option CSGNode) (maxScore : ℚ) :
    List CSGNode → Option CSGNode
  | [] => best
  | c :: cs =>
    if maxScore < rank c then pickBestLoop rank (some c) (rank c) cs
    else pickBestLoop rank best maxScore cs

/-- A geometry clique (`lmu::Clique`): the list of implicit-function ids. -/
structure Clique where
  functions : List Nat
deriving DecidableEq, Repr

/-- `lmu::computeNodesForCliques` (`csgnode_evo.cpp:307-379`).  `rank` is the
`CSGNodeRanker::rank` of the per-clique ranker (use `rankCSG` to build it),
`negMax` models the initial `-DBL_MAX` score, and `ga` abstracts the external
genetic-algorithm run `createCSGNodeWithGA` used for cliques of 3 or more
functions.  Empty cliques are skipped, singleton cliques become a leaf.  The
source dereferences `bestCandidate` unconditionally; the `none` fallback
(never reached when some candidate outranks `negMax`) is modelled as a `noop`
node. -/
def computeNodesForCliques (rank : CSGNode → ℚ) (negMax : ℚ) (ga : List Nat → CSGNode)
    (cliques : List Clique) : List (Clique × CSGNode) :=
  cliques.foldr
    (fun clique res =>
      match clique.functions with
      | [] => res
      | [f0] => (clique, CSGNode.geo f0) :: res
      | [f0, f1] =>
        (clique,
          match pickBestLoop rank none negMax (candidatesForPair f0 f1) with
          | some best => best
          | none => CSGNode.op OpType.noop []) :: res
      | _ => (clique, ga clique.functions) :: res)
    []

/-! ## Pipeline driver (`lmu::PipelineRunner`) -/

/-- The pipeline parameters read by `PipelineRunner::read_pipeline_params`
(`optimizer_pipeline_runner.cpp:269-283`), restricted to the fields that steer
the control flow of `run` (mesh/statistics output does not influence the exit
code or the optimizer calls). -/
structure PipelineParams where
  optimizer : String
  use_decomposition : Bool
  use_redundancy_removal : Bool
deriving Repr

/-- The external collaborators of `PipelineRunner::run`, abstracted as
functions: the result of `fromJSONFile` + `to_binary_tree` (`none` models the
exception path of `load`), `filter_name_duplicates`, `remove_redundancies`,
the clusters on which `optimize_with_decomposition` invokes its optimization
callback, the recombination of the per-cluster results, and the four external
optimizers. -/
structure PipelineEnv where
  loadResult : Option CSGNode
  filterDuplicates : CSGNode → CSGNode
  removeRedundancies : CSGNode → CSGNode
  decomposeClusters : CSGNode → List CSGNode
  recombine : CSGNode → List CSGNode → CSGNode
  gaOptimize : CSGNode → CSGNode
  setCoverOptimize : CSGNode → CSGNode
  quineMcCluskeyOptimize : CSGNode → CSGNode
  espressoOptimize : CSGNode → CSGNode

/-- `PipelineRunner::load` (`optimizer_pipeline_runner.cpp:183-216`): the
node starts as `opNo()` (a childless `Noop` operation) and keeps that value
when loading the tree file throws. -/
def loadNode (env : PipelineEnv) : CSGNode :=
  match env.loadResult with
  | some n => n
  | none => CSGNode.op OpType.noop []

/-- Whether `node.operationType() == CSGNodeOperationType::Noop`: geometry
leaves report a non-`Noop` operation type. -/
def isNoopNode : CSGNode → Bool
  | CSGNode.op OpType.noop _ => true
  | _ => false

/-- `PipelineRunner::optimize` (`optimizer_pipeline_runner.cpp:218-267`):
dispatch on the configured optimizer name; an unknown name throws
(`Except.error`). -/
def optimizeStep (pp : PipelineParams) (env : PipelineEnv) (node : CSGNode) :
    Except String CSGNode :=
  if pp.optimizer = "GA" then Except.ok (env.gaOptimize node)
  else if pp.optimizer = "Sampling.SetCover" then Except.ok (env.setCoverOptimize node)
  else if pp.optimizer = "Sampling.QuineMcCluskey" then
    Except.ok (env.quineMcCluskeyOptimize node)
  else if pp.optimizer = "Sampling.Espresso" then Except.ok (env.espressoOptimize node)
  else Except.error ("Optimizer with name " ++ pp.optimizer ++ " does not exist.")

/-- The decomposition-or-direct optimization step of `PipelineRunner::run`
(`optimizer_pipeline_runner.cpp:112-146`): returns the optimized node (or the
first thrown error) together with the trace of nodes `PipelineRunner::optimize`
was invoked on. -/
def optimizePhase (pp : PipelineParams) (env : PipelineEnv) (node : CSGNode) :
    Except String CSGNode × List CSGNode :=
  if pp.use_decomposition then
    let clusters := env.decomposeClusters node
    let results := clusters.map (optimizeStep pp env)
    if results.all (fun r => r.isOk) then
      (Except.ok (env.recombine node (results.filterMap (fun r => r.toOption))), clusters)
    else
      (Except.error "Decomposition / Optimization failed.", clusters)
  else
    (optimizeStep pp env node, [node])

/-- `PipelineRunner::run` (`optimizer_pipeline_runner.cpp:50-182`), as exit
code plus the trace of nodes handed to `PipelineRunner::optimize`.  The two
`return 1` guards (`Noop` after loading; error or `Noop` after optimizing) and
the optional redundancy-removal passes mirror the source's control flow;
output files and meshes have no effect on either component. -/
def runPipeline (pp : PipelineParams) (env : PipelineEnv) : Nat × List CSGNode :=
  let node0 := loadNode env
  if isNoopNode node0 then (1, [])
  else
    let node1 := env.filterDuplicates node0
    let node2 := if pp.use_redundancy_removal then env.removeRedundancies node1 else node1
    let opt := optimizePhase pp env node2
    match opt.1 with
    | Except.error _ => (1, opt.2)
    | Except.ok node3 =>
      if isNoopNode node3 then (1, opt.2)
      else (0, opt.2)

/-- A concrete environment whose tree file fails to load (`fromJSONFile`
throws) and whose external collaborators are identities; used to witness the
Noop guard. -/
def failingLoadEnv : PipelineEnv :=
  { loadResult := none
    filterDuplicates := id
    removeRedundancies := id
    decomposeClusters := fun _ => []
    recombine := fun n _ => n
    gaOptimize := id
    setCoverOptimize := id
    quineMcCluskeyOptimize := id
    espressoOptimize := id }

/-! ## Manifolds and primitives (`lmu::Manifold`, `lmu::Primitive`) -/

/-- `lmu::ManifoldType`. -/
inductive ManifoldType where
  | plane
  | cylinder
  | sphere
deriving DecidableEq, Repr

/-- `lmu::Manifold`: a fitted surface with point `p`, axis/normal `n`, radius
triple `r` and its supporting point cloud (positions only; the embedded
operations read only the position columns of a manifold's cloud). -/
structure Manifold where
  mtype : ManifoldType
  p : Vec3
  n : Vec3
  r : Vec3
  pc : List Vec3
deriving DecidableEq, Repr

/-- `lmu::PrimitiveType`. -/
inductive PrimitiveType where
  | pnone
  | box
  | cylinder
  | sphere
deriving DecidableEq, Repr

/-- The implicit functions a primitive can carry, as data: the geometric
parameters the constructors in `primitive_extraction.cpp` feed into
`IFPolytope` / `IFCylinder` / `IFSphere` (whose evaluation code is external).
For the cylinder, the source stores `height = (i0 - i1).norm()`; the embedding
stores the squared height (see the header comment) and the axis-frame
rotation (external `getRotationMatrix`) is omitted. -/
inductive ImFunc where
  | ifNone
  | polytope (ps : List Vec3) (ns : List Vec3)
  | cylinder (radius : ℚ) (heightSq : ℚ) (center : Vec3)
  | sphere (center : Vec3) (radius : ℚ)
deriving DecidableEq, Repr

/-- `lmu::Primitive`. -/
structure Primitive where
  ptype : PrimitiveType
  imFunc : ImFunc
  ms : List Manifold
  cutout : Bool
deriving DecidableEq, Repr

/-- `lmu::Primitive::None()`. -/
def Primitive.nonePrim : Primitive :=
  { ptype := PrimitiveType.pnone, imFunc := ImFunc.ifNone, ms := [], cutout := false }

/-- `lmu::Primitive::isNone()`. -/
def Primitive.isNone (p : Primitive) : Bool :=
  p.ptype = PrimitiveType.pnone

/-- The normal-flipping step of `lmu::createBoxPrimitive`
(`primitive_extraction.cpp:1337-1364`) for one pair of planes:
`d1 = (p2 - p1)·n2 / (n1·n2)` and `d2 = (p1 - p2)·n1 / (n2·n1)`; a plane's
normal is negated when its `d` is `>= 0`. -/
def flipPair (a b : Manifold) : Manifold × Manifold :=
  let d1 := Vec3.dot (Vec3.sub b.p a.p) b.n / Vec3.dot a.n b.n
  let d2 := Vec3.dot (Vec3.sub a.p b.p) a.n / Vec3.dot b.n a.n
  ({ a with n := if 0 ≤ d1 then Vec3.neg a.n else a.n },
   { b with n := if 0 ≤ d2 then Vec3.neg b.n else b.n })

/-- `lmu::createBoxPrimitive` (`primitive_extraction.cpp:1323-1374`).
`isEmptyPolytope` abstracts the external `IFPolytope::empty()` test on the
polytope built from the points and the flipped normals (`strictlyParallel` is
`false` in the source, so the second normal of each pair is used as flipped).
Plane sets that do not have exactly 6 members yield `Primitive::None()`. -/
def createBoxPrimitive (isEmptyPolytope : List Vec3 → List Vec3 → Bool)
    (planes : List Manifold) : Primitive :=
  match planes with
  | [q0, q1, q2, q3, q4, q5] =>
    let a0 := flipPair q0 q1
    let a1 := flipPair q2 q3
    let a2 := flipPair q4 q5
    let ms := [a0.1, a0.2, a1.1, a1.2, a2.1, a2.2]
    let pList := [q0.p, q1.p, q2.p, q3.p, q4.p, q5.p]
    let nList := [a0.1.n, a0.2.n, a1.1.n, a1.2.n, a2.1.n, a2.2.n]
    if isEmptyPolytope pList nList then Primitive.nonePrim
    else { ptype := PrimitiveType.box, imFunc := ImFunc.polytope pList nList,
           ms := ms, cutout := false }
  | _ => Primitive.nonePrim

/-- `lmu::createSpherePrimitive` (`primitive_extraction.cpp:1376-1387`). -/
def createSpherePrimitive (m : Manifold) : Primitive :=
  if m.mtype = ManifoldType.sphere then
    { ptype := PrimitiveType.sphere, imFunc := ImFunc.sphere m.p m.r.x,
      ms := [m], cutout := false }
  else Primitive.nonePrim

/-- Componentwise minimum of the position rows
(`pc.leftCols(3).colwise().minCoeff()`); the source assumes a nonempty
cloud, the `[]` value is junk that no embedded theorem relies on. -/
def colwiseMin (pc : List Vec3) : Vec3 :=
  match pc with
  | [] => Vec3.zero
  | v :: vs => vs.foldl Vec3.cmin v

/-- Componentwise maximum of the position rows. -/
def colwiseMax (pc : List Vec3) : Vec3 :=
  match pc with
  | [] => Vec3.zero
  | v :: vs => vs.foldl Vec3.cmax v

/-- `lmu::estimateSecondCylinderPlaneFromPointCloud`
(`primitive_extraction.cpp:1518-1530`): of the min/max corners of the
cylinder cloud, the one farther from the first cap becomes the second cap's
point, and the second cap's normal is the negated first normal.  The source
compares `norm()`s; the embedding compares the squared distances, which
orders identically. -/
def estimateSecondCylinderPlaneFromPointCloud (m firstPlane : Manifold) : Manifold :=
  let minPos := colwiseMin m.pc
  let maxPos := colwiseMax m.pc
  let p := if Vec3.distSq firstPlane.p maxPos < Vec3.distSq firstPlane.p minPos
           then minPos else maxPos
  { mtype := ManifoldType.plane, p := p, n := Vec3.neg firstPlane.n,
    r := Vec3.zero, pc := [] }

/-- `lmu::estimateCylinderHeightFromPointCloud`
(`primitive_extraction.cpp:1488-1515`), squared: each cloud point is
projected onto the axis, its parameter `t = (proj_p.x - m.p.x) / m.n.x` is
tracked, and the result is the distance between the extremal projections.
The source returns `(max_p - min_p).norm()`; the embedding returns its
square. -/
def estimateCylinderHeightSqFromPointCloud (m : Manifold) : ℚ :=
  let tOf := fun (p : Vec3) =>
    let ap := Vec3.sub p m.p
    let projP := Vec3.add m.p (Vec3.smul (Vec3.dot ap m.n / Vec3.dot m.n m.n) m.n)
    (projP.x - m.p.x) / m.n.x
  match m.pc with
  | [] => 0
  | v :: vs =>
    let minT := vs.foldl (fun acc p => min acc (tOf p)) (tOf v)
    let maxT := vs.foldl (fun acc p => max acc (tOf p)) (tOf v)
    Vec3.distSq (Vec3.add m.p (Vec3.smul maxT m.n)) (Vec3.add m.p (Vec3.smul minT m.n))

/-- The `case 2` body of `lmu::createCylinderPrimitive`
(`primitive_extraction.cpp:1396-1425`): intersect the axis ray
`l0 + d·l = m.p + d·m.n` with both cap planes, store the squared distance of
the two intersection points as the (squared) height, and centre the cylinder
between them.  The manifold set is `{m, planes[0], planes[1]}`. -/
def cylinderFromTwoCaps (m q0 q1 : Manifold) : Primitive :=
  let d0 := Vec3.dot (Vec3.sub q0.p m.p) q0.n / Vec3.dot m.n q0.n
  let i0 := Vec3.add (Vec3.smul d0 m.n) m.p
  let d1 := Vec3.dot (Vec3.sub q1.p m.p) q1.n / Vec3.dot m.n q1.n
  let i1 := Vec3.add (Vec3.smul d1 m.n) m.p
  let heightSq := Vec3.distSq i0 i1
  let pos := Vec3.add i0 (Vec3.smul (1 / 2) (Vec3.sub i1 i0))
  { ptype := PrimitiveType.cylinder, imFunc := ImFunc.cylinder m.r.x heightSq pos,
    ms := [m, q0, q1], cutout := false }

/-- `lmu::createCylinderPrimitive` (`primitive_extraction.cpp:1389-1441`).
`case 1` synthesises the second cap from the point cloud and falls through to
`case 2`; `case 0` estimates the height from the cloud; more than two caps
yield `Primitive::None()`. -/
def createCylinderPrimitive (m : Manifold) (planes : List Manifold) : Primitive :=
  match planes with
  | [q0] => cylinderFromTwoCaps m q0 (estimateSecondCylinderPlaneFromPointCloud m q0)
  | [q0, q1] => cylinderFromTwoCaps m q0 q1
  | [] =>
    { ptype := PrimitiveType.cylinder,
      imFunc := ImFunc.cylinder m.r.x (estimateCylinderHeightSqFromPointCloud m) m.p,
      ms := [m], cutout := false }
  | _ => Primitive.nonePrim

/-! ## Primitive-set creator (`lmu::PrimitiveSetCreator`) -/

/-- `lmu::manifoldsEqual`.  Modelled from the spec: the implementation is not
among the given sources; §4.2 describes it as comparing the type, `p` within
`ε`, and `n` with a sign-agnostic angular tolerance.  Position proximity is
expressed through the squared distance and the angular tolerance through the
squared dot product (`|cos| ≥ 1 - ε`). -/
def manifoldsEqualSpec (a b : Manifold) (eps : ℚ) : Bool :=
  decide (a.mtype = b.mtype) &&
  decide (Vec3.distSq a.p b.p ≤ eps ^ 2) &&
  decide ((1 - eps) ^ 2 * (Vec3.normSq a.n * Vec3.normSq b.n) ≤ (Vec3.dot a.n b.n) ^ 2)

/-- `lmu::PrimitiveSetCreator::getManifold`
(`primitive_extraction.cpp:503-533`): filter the creator's manifolds by type,
by not being `manifoldsEqual` (ε = 0.0001) to an already used one, by
direction (`|direction·n| > cos(angleEpsilon)`, skipped when
`ignoreDirection`), and by `|(point - p)·n| > minimumPointDistance`; then draw
one of the candidates uniformly.  `cosE` is the precomputed
`cos(angleEpsilon)` (the cosine is external real arithmetic, so the embedding
takes the cosine itself as the parameter); `pick` is the uniform draw,
realised as `pick % candidates.length` (out of an empty candidate list the
result is `none`, the source's `nullptr`).  The header defaults
`ignoreDirection = false`, `point = (0,0,0)`, `minimumPointDistance = 0` are
not among the given sources and are modelled from the call sites. -/
def getManifold (ms : List Manifold) (mtype : ManifoldType) (direction : Vec3)
    (alreadyUsed : List Manifold) (cosE : ℚ) (ignoreDirection : Bool)
    (point : Vec3) (minimumPointDistance : ℚ) (pick : Nat) : Option Manifold :=
  let candidates := ms.filter (fun m =>
    decide (m.mtype = mtype) &&
    alreadyUsed.all (fun u => ! manifoldsEqualSpec m u (1 / 10000)) &&
    (ignoreDirection || decide (cosE < |Vec3.dot direction m.n|)) &&
    decide (minimumPointDistance < |Vec3.dot (Vec3.sub point m.p) m.n|))
  candidates[pick % candidates.length]?

/-- `lmu::PrimitiveSetCreator::getParallelPlane`
(`primitive_extraction.cpp:580-585`). -/
def getParallelPlane (ms : List Manifold) (plane : Manifold)
    (alreadyUsed : List Manifold) (cosE : ℚ) (minDistanceToParallelPlane : ℚ)
    (pick : Nat) : Option Manifold :=
  getManifold ms ManifoldType.plane plane.n alreadyUsed cosE false plane.p
    minDistanceToParallelPlane pick

/-- `lmu::PrimitiveSetCreator::getPerpendicularPlane`
(`primitive_extraction.cpp:535-578`): planes not already used whose normals
satisfy `|plane·n| < cos(angleEpsilon)` against every reference plane. -/
def getPerpendicularPlane (ms : List Manifold) (planes : List Manifold)
    (alreadyUsed : List Manifold) (cosE : ℚ) (pick : Nat) : Option Manifold :=
  let candidates := ms.filter (fun m =>
    decide (m.mtype = ManifoldType.plane) &&
    alreadyUsed.all (fun u => ! manifoldsEqualSpec m u (1 / 10000)) &&
    planes.all (fun q => decide (|Vec3.dot q.n m.n| < cosE)))
  candidates[pick % candidates.length]?

/-- `lmu::PrimitiveSetCreator::getAvailableManifoldTypes`
(`primitive_extraction.cpp:587-595`), as a duplicate-free list (the source's
`unordered_set`; its iteration order is external, and the uniform type draw
below reaches every member under every order). -/
def getAvailableManifoldTypes (ms : List Manifold) : List ManifoldType :=
  (ms.map Manifold.mtype).dedup

/-- `lmu::PrimitiveSetCreator::getRandomPrimitiveType`
(`primitive_extraction.cpp:597-615`): draw one of the available manifold
types; `Plane` begets `Box`, `Cylinder` begets `Cylinder`, anything else
(including `Sphere`) falls into the `default:` branch and begets `None`. -/
def getRandomPrimitiveType (ms : List Manifold) (pick : Nat) : PrimitiveType :=
  let types := getAvailableManifoldTypes ms
  match types[pick % types.length]? with
  | some ManifoldType.plane => PrimitiveType.box
  | some ManifoldType.cylinder => PrimitiveType.cylinder
  | _ => PrimitiveType.pnone

/-- The random draws of one `PrimitiveSetCreator::createPrimitive` call: the
type draw, the six picks of the box plane chain, the cap-count draw
`du{0, 2}` and the two cap picks of the cylinder branch, the cylinder and
sphere manifold picks, and the final `cutout` Bernoulli draw. -/
structure CPOracle where
  typePick : Nat
  boxPick0 : Nat
  boxPick1 : Nat
  boxPick2 : Nat
  boxPick3 : Nat
  boxPick4 : Nat
  boxPick5 : Nat
  numCaps : Nat
  capPick : Nat → Nat
  cylPick : Nat
  spherePick : Nat
  cutout : Bool

/-- The cap-selection loop shared by `createPrimitive`'s cylinder branch and
`mutatePrimitive` (`primitive_extraction.cpp:689-696` and `750-758`): up to
`numPlanes` times, draw a plane roughly perpendicular to the cylinder axis
(direction filter against `cyl.n`) that was not selected before; failures are
skipped. -/
def selectCaps (ms : List Manifold) (cyl : Manifold) (cosE : ℚ)
    (capPick : Nat → Nat) (numPlanes : Nat) : List Manifold :=
  (List.range numPlanes).foldl
    (fun planes i =>
      match getManifold ms ManifoldType.plane cyl.n planes cosE false Vec3.zero 0
          (capPick i) with
      | some p => planes ++ [p]
      | none => planes)
    []

/-- `lmu::PrimitiveSetCreator::createPrimitive`
(`primitive_extraction.cpp:617-718`).  The box branch chains six plane
selections (any plane; its parallel partner; a perpendicular plane; its
partner; a plane perpendicular to the previous four; its partner), breaking
to `None` when any selection fails.  The first selection passes
`angleEpsilon = 0.0`, i.e. `cos = 1`, with `ignoreDirection = true`.  The
`cutout` flag is drawn last on every path, also for `None` results, as in the
source. -/
def createPrimitive (ms : List Manifold) (cosE minDistPP : ℚ)
    (isEmptyPolytope : List Vec3 → List Vec3 → Bool) (o : CPOracle) : Primitive :=
  let primitive :=
    match getRandomPrimitiveType ms o.typePick with
    | PrimitiveType.box =>
      match getManifold ms ManifoldType.plane Vec3.zero [] 1 true Vec3.zero 0 o.boxPick0 with
      | none => Primitive.nonePrim
      | some pl0 =>
        let planes1 := [pl0]
        match getParallelPlane ms pl0 planes1 cosE minDistPP o.boxPick1 with
        | none => Primitive.nonePrim
        | some pl1 =>
          let planes2 := planes1 ++ [pl1]
          match getPerpendicularPlane ms planes2 planes2 cosE o.boxPick2 with
          | none => Primitive.nonePrim
          | some pl2 =>
            let planes3 := planes2 ++ [pl2]
            match getParallelPlane ms pl2 planes3 cosE minDistPP o.boxPick3 with
            | none => Primitive.nonePrim
            | some pl3 =>
              let planes4 := planes3 ++ [pl3]
              match getPerpendicularPlane ms planes4 planes4 cosE o.boxPick4 with
              | none => Primitive.nonePrim
              | some pl4 =>
                let planes5 := planes4 ++ [pl4]
                match getParallelPlane ms pl4 planes5 cosE minDistPP o.boxPick5 with
                | none => Primitive.nonePrim
                | some pl5 =>
                  createBoxPrimitive isEmptyPolytope (planes5 ++ [pl5])
    | PrimitiveType.cylinder =>
      match getManifold ms ManifoldType.cylinder Vec3.zero [] 1 true Vec3.zero 0 o.cylPick with
      | none => Primitive.nonePrim
      | some cyl =>
        createCylinderPrimitive cyl (selectCaps ms cyl cosE o.capPick (o.numCaps % 3))
    | PrimitiveType.sphere =>
      match getManifold ms ManifoldType.sphere Vec3.zero [] 1 true Vec3.zero 0 o.spherePick with
      | none => Primitive.nonePrim
      | some sphere => createSpherePrimitive sphere
    | PrimitiveType.pnone => Primitive.nonePrim
  { primitive with cutout := o.cutout }

/-- The random draws of one `PrimitiveSetCreator::mutatePrimitive` call:
the parallel-pair draw `du{0, 2}`, the parallel-plane pick, the cap draws of
the cylinder branch, and the final `cutout` Bernoulli draw. -/
structure MPOracle where
  pairPick : Nat
  parallelPick : Nat
  numCaps : Nat
  capPick : Nat → Nat
  cutout : Bool

/-- `lmu::PrimitiveSetCreator::mutatePrimitive`
(`primitive_extraction.cpp:720-769`).  A box has one plane of a random
parallel pair replaced by another parallel plane (slot `planePairIdx + 1`);
a cylinder gets a fresh cap set; the `switch` has no case for spheres or
`None`, which therefore pass through unchanged — except for the `cutout`
flag, which is redrawn after the `switch` on every path.  The source indexes
`p.ms[planePairIdx]` and `p.ms[0]` unconditionally; out-of-range access (not
reachable for well-formed primitives) is modelled as leaving the primitive
unchanged. -/
def mutatePrimitive (ms : List Manifold) (cosE minDistPP : ℚ)
    (isEmptyPolytope : List Vec3 → List Vec3 → Bool) (o : MPOracle)
    (p : Primitive) : Primitive :=
  let primitive :=
    match p.ptype with
    | PrimitiveType.box =>
      let planePairIdx := (o.pairPick % 3) * 2
      match p.ms[planePairIdx]? with
      | none => p
      | some basePlane =>
        match getParallelPlane ms basePlane p.ms cosE minDistPP o.parallelPick with
        | some newPlane =>
          createBoxPrimitive isEmptyPolytope (p.ms.set (planePairIdx + 1) newPlane)
        | none => p
    | PrimitiveType.cylinder =>
      match p.ms[0]? with
      | none => p
      | some cyl => createCylinderPrimitive cyl (selectCaps ms cyl cosE o.capPick (o.numCaps % 3))
    | _ => p
  { primitive with cutout := o.cutout }

/-- `lmu::MutationType` (`NEW`, `REPLACE`, `MODIFY`, `REMOVE`, `ADD`). -/
inductive MutationType where
  | new
  | replace
  | modify
  | remove
  | add
deriving DecidableEq, Repr

/-- The random draws of one `PrimitiveSetCreator::create` call: the set-size
draw `du{1, maxPrimitiveSetSize}` and one `createPrimitive` oracle per
attempt.  The source's fill loop carries no bound and spins until enough
creations succeed; `attempts` bounds the modelled loop, and every terminating
execution of the source is reproduced by a sufficiently large value. -/
structure PSCOracle where
  setSizeDraw : Nat
  attempts : Nat
  prim : Nat → CPOracle

/-- The fill loop of `PrimitiveSetCreator::create`
(`primitive_extraction.cpp:477-491`): keep creating primitives, dropping
`None` results, until the set has the drawn size (or the attempt fuel is
exhausted, see `PSCOracle`). -/
def psCreateLoop (mkPrim : Nat → Primitive) (setSize : Nat) :
    Nat → Nat → List Primitive → List Primitive
  | 0, _, acc => acc
  | fuel + 1, i, acc =>
    if acc.length < setSize then
      let p := mkPrim i
      psCreateLoop mkPrim setSize fuel (i + 1) (if p.isNone then acc else acc ++ [p])
    else acc

/-- `lmu::PrimitiveSetCreator::create` (`primitive_extraction.cpp:464-496`):
draw `setSize` uniformly from `[1, maxPrimitiveSetSize]` and fill. -/
def psCreate (ms : List Manifold) (cosE minDistPP : ℚ)
    (isEmptyPolytope : List Vec3 → List Vec3 → Bool) (maxPrimitiveSetSize : Nat)
    (o : PSCOracle) : List Primitive :=
  let setSize := 1 + o.setSizeDraw % maxPrimitiveSetSize
  psCreateLoop (fun i => createPrimitive ms cosE minDistPP isEmptyPolytope (o.prim i))
    setSize o.attempts 0 []

/-- The random draws of one `PrimitiveSetCreator::mutate` call: the mutation
type drawn from the discrete `mutationDistribution`, the iteration count
(the source redraws `du{1, maxMutationIterations}` as the loop bound; the
modelled count is the number of executed iterations), per-iteration index
picks, and per-iteration creation/modification oracles. -/
structure PSMOracle where
  mt : MutationType
  numIters : Nat
  idxPick : Nat → Nat
  primOracle : Nat → CPOracle
  mutOracle : Nat → MPOracle
  createOracle : PSCOracle

/-- One iteration of the mutation loop of `PrimitiveSetCreator::mutate`
(`primitive_extraction.cpp:320-369`). -/
def psMutateStep (ms : List Manifold) (cosE minDistPP : ℚ)
    (isEmptyPolytope : List Vec3 → List Vec3 → Bool) (o : PSMOracle)
    (newPS : List Primitive) (i : Nat) : List Primitive :=
  match o.mt with
  | MutationType.replace =>
    let idx := o.idxPick i % newPS.length
    match newPS[idx]? with
    | none => newPS
    | some old =>
      let newP := createPrimitive ms cosE minDistPP isEmptyPolytope (o.primOracle i)
      newPS.set idx (if newP.isNone then old else newP)
  | MutationType.modify =>
    let idx := o.idxPick i % newPS.length
    match newPS[idx]? with
    | none => newPS
    | some old =>
      let newP := mutatePrimitive ms cosE minDistPP isEmptyPolytope (o.mutOracle i) old
      newPS.set idx (if newP.isNone then old else newP)
  | MutationType.remove => newPS
  | MutationType.add =>
    let newP := createPrimitive ms cosE minDistPP isEmptyPolytope (o.primOracle i)
    if newP.isNone then newPS else newPS ++ [newP]
  | MutationType.new => newPS

/-- `lmu::PrimitiveSetCreator::mutate` (`primitive_extraction.cpp:303-373`):
when the drawn mutation type is `NEW` **or the incoming set is empty**, a
fresh set is created; otherwise the drawn mutation is applied iteratively to
a copy of the set. -/
def psMutate (ms : List Manifold) (cosE minDistPP : ℚ)
    (isEmptyPolytope : List Vec3 → List Vec3 → Bool) (maxPrimitiveSetSize : Nat)
    (o : PSMOracle) (ps : List Primitive) : List Primitive :=
  if o.mt = MutationType.new ∨ ps.isEmpty then
    psCreate ms cosE minDistPP isEmptyPolytope maxPrimitiveSetSize o.createOracle
  else
    (List.range o.numIters).foldl (psMutateStep ms cosE minDistPP isEmptyPolytope o) ps

/-! ## Creator construction and seeding (C8) -/

/-- The state of `lmu::PrimitiveSetCreator` right after construction
(`primitive_extraction.cpp:279-293`).  The RNG state is modelled by the value
the engine was seeded with: the constructor executes
`rndEngine.seed(rndDevice())`, so the state is the draw of the hardware
entropy source `std::random_device`, not a function of any input. -/
structure PrimitiveSetCreatorState where
  ms : List Manifold
  intraCrossProb : ℚ
  mutationDistribution : List ℚ
  maxMutationIterations : Nat
  maxCrossoverIterations : Nat
  maxPrimitiveSetSize : Nat
  cosAngleEpsilon : ℚ
  minDistanceBetweenParallelPlanes : ℚ
  rngState : Nat
deriving Repr

/-- `lmu::PrimitiveSetCreator::PrimitiveSetCreator`: stores the parameters
and seeds the engine from the `std::random_device` draw `deviceDraw`. -/
def mkPrimitiveSetCreator (ms : List Manifold) (intraCrossProb : ℚ)
    (mutationDistribution : List ℚ) (maxMutationIterations maxCrossoverIterations : Nat)
    (maxPrimitiveSetSize : Nat) (cosAngleEpsilon minDistPP : ℚ)
    (deviceDraw : Nat) : PrimitiveSetCreatorState :=
  { ms := ms, intraCrossProb := intraCrossProb,
    mutationDistribution := mutationDistribution,
    maxMutationIterations := maxMutationIterations,
    maxCrossoverIterations := maxCrossoverIterations,
    maxPrimitiveSetSize := maxPrimitiveSetSize,
    cosAngleEpsilon := cosAngleEpsilon,
    minDistanceBetweenParallelPlanes := minDistPP,
    rngState := deviceDraw }

/-- The state of `lmu::CSGNodeCreator` right after construction
(`csgnode_evo.cpp:90-98`); the constructor executes
`_rndEngine.seed(_rndDevice())`. -/
structure CSGNodeCreatorState where
  functions : List Nat
  createNewRandomProb : ℚ
  subtreeProb : ℚ
  maxTreeDepth : Int
  rngState : Nat
deriving Repr

/-- `lmu::CSGNodeCreator::CSGNodeCreator`: stores the parameters and seeds
the engine from the `std::random_device` draw `deviceDraw`. -/
def mkCSGNodeCreator (functions : List Nat) (createNewRandomProb subtreeProb : ℚ)
    (maxTreeDepth : Int) (deviceDraw : Nat) : CSGNodeCreatorState :=
  { functions := functions, createNewRandomProb := createNewRandomProb,
    subtreeProb := subtreeProb, maxTreeDepth := maxTreeDepth,
    rngState := deviceDraw }

/-! ## Primitive-set ranker (`lmu::PrimitiveSetRanker::rank2`) -/

/-- A primitive as the ranker's geometry loop sees it: only through
`p.imFunc->signedDistanceAndGradient(point)`, whose evaluation is external
geometry-kernel code.  `sd` is the signed distance component, `grad` the raw
(unnormalised) gradient component. -/
structure RankPrim where
  sd : Vec3 → ℚ
  grad : Vec3 → Vec3

/-- The state of `lmu::PrimitiveSetRanker`
(`primitive_extraction.cpp:773-781`), restricted to the fields `rank2` can
read: the point cloud (position and normal per row), the static primitives,
`distanceEpsilon` and `maxPrimitiveSetSize`.  (`ms` and the best-rank
tracking are irrelevant to the per-point validity.) -/
structure PSRankerState where
  pc : List (Vec3 × Vec3)
  staticPrimitives : List RankPrim
  distanceEpsilon : ℚ
  maxPrimitiveSetSize : Nat

/-- One step of the closest-primitive loop of `rank2`
(`primitive_extraction.cpp:1250-1267`): track the minimum of `|sd|` and the
gradient of the primitive attaining it; the update happens on strict
improvement `min_d > d`, so the earliest minimiser is kept.  The `none`
accumulator models the initial `min_d = DBL_MAX` with uninitialised
`min_normal`. -/
def geoStep (x : Vec3) (acc : Option (ℚ × Vec3)) (p : RankPrim) : Option (ℚ × Vec3) :=
  let d := |p.sd x|
  match acc with
  | none => some (d, p.grad x)
  | some (d0, g0) => if d < d0 then some (d, p.grad x) else some (d0, g0)

/-- Minimal `|sd|` over the ranked set together with the argmin's raw
gradient. -/
def minDistNormal (ps : List RankPrim) (x : Vec3) : Option (ℚ × Vec3) :=
  ps.foldl (geoStep x) none

/-- Validity of one point in `rank2`'s geometry score
(`primitive_extraction.cpp:1274`): `min_d < delta && n.dot(min_normal) > 0.9`
with the hard-coded `delta = 0.0001` (`primitive_extraction.cpp:1241`); the
minimum ranges over the ranked set `ps` only — `rank2` reads neither
`staticPrimitives` nor `distanceEpsilon` nor its `ignoreStaticPrimitives`
argument. -/
def rank2ValidPoint (ps : List RankPrim) (x nu : Vec3) : Bool :=
  match minDistNormal ps x with
  | none => false
  | some (d, g) => decide (d < 1 / 10000) && decide (dotNormalizedGt nu g (9 / 10))

/-- The geometry score of `rank2`: valid points over checked points. -/
def rank2GeoScore (ps : List RankPrim) (pc : List (Vec3 × Vec3)) : ℚ :=
  ((pc.countP (fun xn => rank2ValidPoint ps xn.1 xn.2) : ℚ)) / (pc.length : ℚ)

/-- `lmu::PrimitiveSetRanker::rank2` (`primitive_extraction.cpp:1083-1300`).
The area score sums external CGAL rasterisation results per box primitive and
is abstracted by `area` (returning the summed point area and summed surface
area); `negMax` models the `-DBL_MAX` returned for an empty set.  The
weighted sum uses the source's weights `a = 1`, `g = 1`, `s = 0`. -/
def rank2 (r : PSRankerState) (area : List RankPrim → ℚ × ℚ) (negMax : ℚ)
    (ps : List RankPrim) (ignoreStaticPrimitives : Bool) : ℚ :=
  if ps.isEmpty then negMax
  else
    let ar := area ps
    let sizeScore := (ps.length : ℚ) / (r.maxPrimitiveSetSize : ℚ)
    let geoScore := rank2GeoScore ps r.pc
    let areaScore := ar.1 / ar.2
    1 * areaScore + 1 * geoScore - 0 * sizeScore

/-- The per-point validity AS CLAIMED by the specification (defined from the
spec's words, for the refinement comparison): the distance is the minimum of
`|sd|` over the ranked set together with the static primitives (unless these
are ignored), and the point is valid iff that distance is below the ranker's
`distanceEpsilon` parameter and the normal agrees with the argmin's
normalised gradient above `0.9`. -/
def specValidPoint (r : PSRankerState) (ps : List RankPrim)
    (ignoreStaticPrimitives : Bool) (x nu : Vec3) : Bool :=
  let all := ps ++ (if ignoreStaticPrimitives then [] else r.staticPrimitives)
  match minDistNormal all x with
  | none => false
  | some (d, g) => decide (d < r.distanceEpsilon) && decide (dotNormalizedGt nu g (9 / 10))

/-! ## Geometric predicates for the claims -/

/-- Sign indicator for the parameter `t` at which the ray `p1 + t·n1` meets
the plane through `p2` with normal `n2`: the intersection parameter is
`((p2 - p1)·n2) / (n1·n2)`, whose sign (when defined) is the sign of
`raySide`. -/
def raySide (p1 n1 p2 n2 : Vec3) : ℚ :=
  Vec3.dot (Vec3.sub p2 p1) n2 * Vec3.dot n1 n2

/-- "The plane `(p1, n1)` faces the plane `(p2, n2)`": its normal points
toward the partner plane, i.e. the ray from `p1` along `n1` reaches the
partner plane at a positive parameter.  Two planes face each other (the
spec's "normals face inward relative to each other") when this holds in both
directions. -/
def facesToward (p1 n1 p2 n2 : Vec3) : Prop :=
  0 < raySide p1 n1 p2 n2

instance (p1 n1 p2 n2 : Vec3) : Decidable (facesToward p1 n1 p2 n2) := by
  unfold facesToward; infer_instance

/-- The point `i` lies on the plane of manifold `q`. -/
def liesOnPlane (i : Vec3) (q : Manifold) : Prop :=
  Vec3.dot (Vec3.sub i q.p) q.n = 0

/-- The point `i` lies on the axis of the cylinder manifold `m`. -/
def liesOnAxis (m : Manifold) (i : Vec3) : Prop :=
  ∃ t : ℚ, i = Vec3.add (Vec3.smul t m.n) m.p

/-- Sign-agnostic parallelism of two normals within an angular tolerance
whose cosine is `cosEps` (for `cosEps ≥ 0`): `|cos ∠(n0, n1)| ≥ cosEps`,
expressed through squares to stay in rational arithmetic. -/
def parallelWithinCos (n0 n1 : Vec3) (cosEps : ℚ) : Prop :=
  cosEps ^ 2 * (Vec3.normSq n0 * Vec3.normSq n1) ≤ (Vec3.dot n0 n1) ^ 2

instance (n0 n1 : Vec3) (cosEps : ℚ) : Decidable (parallelWithinCos n0 n1 cosEps) := by
  unfold parallelWithinCos; infer_instance

/-! # Theorems -/

/-! ## Vector algebra helpers -/

theorem Vec3.dot_comm (a b : Vec3) : Vec3.dot a b = Vec3.dot b a := by
  unfold Vec3.dot; ring

theorem Vec3.dot_neg_left (a b : Vec3) : Vec3.dot (Vec3.neg a) b = -Vec3.dot a b := by
  unfold Vec3.dot Vec3.neg; ring

theorem Vec3.dot_neg_right (a b : Vec3) : Vec3.dot a (Vec3.neg b) = -Vec3.dot a b := by
  unfold Vec3.dot Vec3.neg; ring

theorem Vec3.dot_sub_swap (a b w : Vec3) :
    Vec3.dot (Vec3.sub a b) w = -Vec3.dot (Vec3.sub b a) w := by
  unfold Vec3.dot Vec3.sub; ring

/-- Expanding the dot product of a point on a parameterised line against a
plane normal. -/
theorem Vec3.dot_lineparam (t : ℚ) (n p q w : Vec3) :
    Vec3.dot (Vec3.sub (Vec3.add (Vec3.smul t n) p) q) w =
      t * Vec3.dot n w + Vec3.dot (Vec3.sub p q) w := by
  unfold Vec3.dot Vec3.sub Vec3.add Vec3.smul; ring

/-! ## C10: mutate on an empty primitive set -/

/-- C10: if the primitive-set `mutate` is called on an empty set, then for
every sampled mutation kind (every oracle, in particular every drawn
`MutationType`) it returns exactly what the `NEW` branch — a call to
`create()` — returns; the `REPLACE`/`MODIFY`/`ADD`/`REMOVE` loop, the only
place that indexes into the set, is never entered, so `mutate` never indexes
into an empty set. -/
theorem psMutate_empty_is_create (ms : List Manifold) (cosE minDistPP : ℚ)
    (isEmptyPolytope : List Vec3 → List Vec3 → Bool) (maxPrimitiveSetSize : Nat)
    (o : PSMOracle) :
    psMutate ms cosE minDistPP isEmptyPolytope maxPrimitiveSetSize o [] =
      psCreate ms cosE minDistPP isEmptyPolytope maxPrimitiveSetSize o.createOracle := by
  simp [psMutate]

/-! ## C9: MODIFY mutation on a sphere primitive -/

/-- C9 (amended): the `MODIFY` mutation leaves a Sphere primitive's kind,
implicit function and manifold set unchanged (the `switch` has no sphere
case), but it re-draws the `cutout` flag after the `switch`: the result is
`p` with `cutout` replaced by the fresh Bernoulli draw. -/
theorem mutatePrimitive_sphere (ms : List Manifold) (cosE minDistPP : ℚ)
    (isEmptyPolytope : List Vec3 → List Vec3 → Bool) (o : MPOracle) (p : Primitive)
    (h : p.ptype = PrimitiveType.sphere) :
    mutatePrimitive ms cosE minDistPP isEmptyPolytope o p = { p with cutout := o.cutout } := by
  unfold mutatePrimitive
  rw [h]
  simp [h]

/-- Witness for `mutatePrimitive_sphere` at a concrete sphere primitive. -/
theorem mutatePrimitive_sphere_witness :
    ({ ptype := PrimitiveType.sphere, imFunc := ImFunc.sphere Vec3.zero 1,
       ms := [], cutout := true } : Primitive).ptype = PrimitiveType.sphere ∧
    mutatePrimitive [] 1 0 (fun _ _ => false)
      { pairPick := 0, parallelPick := 0, numCaps := 0, capPick := fun _ => 0,
        cutout := false }
      { ptype := PrimitiveType.sphere, imFunc := ImFunc.sphere Vec3.zero 1,
        ms := [], cutout := true } =
      { ptype := PrimitiveType.sphere, imFunc := ImFunc.sphere Vec3.zero 1,
        ms := [], cutout := false } :=
  ⟨rfl, mutatePrimitive_sphere [] 1 0 (fun _ _ => false) _ _ rfl⟩

/-- C9 (counterexample to the claim as stated): the `MODIFY` mutation is not
a no-op on spheres — with a `cutout` draw that differs from the primitive's
flag, the returned primitive differs from `p` in its `cutout` field. -/
theorem mutatePrimitive_sphere_not_noop :
    mutatePrimitive [] 1 0 (fun _ _ => false)
      { pairPick := 0, parallelPick := 0, numCaps := 0, capPick := fun _ => 0,
        cutout := false }
      { ptype := PrimitiveType.sphere, imFunc := ImFunc.sphere Vec3.zero 1,
        ms := [], cutout := true } ≠
      { ptype := PrimitiveType.sphere, imFunc := ImFunc.sphere Vec3.zero 1,
        ms := [], cutout := true } := by
  intro h
  exact absurd (congrArg Primitive.cutout h) (by decide)

/-! ## C8: creator RNG seeding -/

/-- C8 (counterexample to the claim as stated): the creators' random streams
are not reproducible from the program inputs — both creator constructors
seed their engine from a fresh `std::random_device` draw, so two
constructions with identical inputs (as here) but different device draws are
in different states; no fixed-seed input exists. -/
theorem creator_seeding_not_reproducible :
    mkCSGNodeCreator [0] (1 / 2) (7 / 10) 10 0 ≠ mkCSGNodeCreator [0] (1 / 2) (7 / 10) 10 1 ∧
    mkPrimitiveSetCreator [] 0 [1] 1 1 50 (9 / 10) (1 / 1000) 0 ≠
      mkPrimitiveSetCreator [] 0 [1] 1 1 50 (9 / 10) (1 / 1000) 1 := by
  constructor
  · intro h
    exact absurd (congrArg CSGNodeCreatorState.rngState h) (by decide)
  · intro h
    exact absurd (congrArg PrimitiveSetCreatorState.rngState h) (by decide)

/-- C8 (amended): the RNG state of a freshly constructed creator equals the
`std::random_device` draw made in the constructor and depends on nothing
else: for both creators, two constructions agree on the engine state iff the
device draws agree, regardless of all program inputs. -/
theorem creator_rng_state_is_device_draw
    (fs1 fs2 : List Nat) (cn1 cn2 sp1 sp2 : ℚ) (md1 md2 : Int)
    (ms1 ms2 : List Manifold) (ic1 ic2 : ℚ) (dist1 dist2 : List ℚ)
    (mi1 mi2 ci1 ci2 sz1 sz2 : Nat) (ce1 ce2 pp1 pp2 : ℚ) (e1 e2 : Nat) :
    ((mkCSGNodeCreator fs1 cn1 sp1 md1 e1).rngState =
        (mkCSGNodeCreator fs2 cn2 sp2 md2 e2).rngState ↔ e1 = e2) ∧
    ((mkPrimitiveSetCreator ms1 ic1 dist1 mi1 ci1 sz1 ce1 pp1 e1).rngState =
        (mkPrimitiveSetCreator ms2 ic2 dist2 mi2 ci2 sz2 ce2 pp2 e2).rngState ↔ e1 = e2) := by
  exact ⟨Iff.rfl, Iff.rfl⟩

/-! ## C7: the Noop guard of the pipeline driver -/

/-- C7: when the loaded tree is a `Noop` operation — in particular when
loading failed, which leaves the `opNo()` initial value in place — `run`
returns exit code 1 and the optimizer-invocation trace is empty: no
optimizer is invoked. -/
theorem runPipeline_noop_guard (pp : PipelineParams) (env : PipelineEnv)
    (h : env.loadResult = none ∨ isNoopNode (loadNode env) = true) :
    runPipeline pp env = (1, []) := by
  have hn : isNoopNode (loadNode env) = true := by
    rcases h with h | h
    · simp [loadNode, h, isNoopNode]
    · exact h
  unfold runPipeline
  simp [hn]

/-- Witness for `runPipeline_noop_guard`: a pipeline whose tree file fails to
load exits with 1 and an empty optimizer trace. -/
theorem runPipeline_noop_guard_witness :
    (failingLoadEnv.loadResult = none ∨ isNoopNode (loadNode failingLoadEnv) = true) ∧
    runPipeline
      { optimizer := "GA", use_decomposition := true, use_redundancy_removal := true }
      failingLoadEnv = (1, []) :=
  ⟨Or.inl rfl, runPipeline_noop_guard _ failingLoadEnv (Or.inl rfl)⟩

/-! ## C2: crossover fallback -/

/-- C2 (failing input for the claim as stated): crossing
`a = Union(geo 0, geo 1)` with
`b = Union(Union(geo 2, geo 3), geo 4)` at node paths `[]` (the root of `a`)
and `[0, 0]` (the leaf `geo 2` of `b`) under `max_depth = 2` swaps the whole
of `a` into `b`, making the second swapped tree too deep (depth 3); the
source then falls back to `node1` — i.e. `a` — on the second side
(`csgnode_evo.cpp:161`), not to `b` as the claim (and the commented-out line
directly above, `newTree2.depth() <= _maxTreeDepth ? newTree2 : tree2`)
states.  The first offspring behaves as claimed. -/
theorem crossoverCSG_second_fallback_is_node1 :
    crossoverCSG 2
      (CSGNode.op OpType.union [CSGNode.geo 0, CSGNode.geo 1])
      (CSGNode.op OpType.union
        [CSGNode.op OpType.union [CSGNode.geo 2, CSGNode.geo 3], CSGNode.geo 4])
      [] [0, 0] =
      [CSGNode.geo 2, CSGNode.op OpType.union [CSGNode.geo 0, CSGNode.geo 1]] ∧
    (CSGNode.op OpType.union [CSGNode.geo 0, CSGNode.geo 1]) ≠
      (CSGNode.op OpType.union
        [CSGNode.op OpType.union [CSGNode.geo 2, CSGNode.geo 3], CSGNode.geo 4]) := by
  constructor
  · decide
  · decide

/-! ## C6: mutation depth -/

/-- Every child built by the `create(node, maxDepth, curDepth)` recursion has
depth at most the remaining budget `maxDepth - curDepth` (clamped at 0: when
the budget is exhausted or negative the child is a leaf). -/
theorem createChild_depth_le (o : CNOracle) (maxD : Int) :
    ∀ (fuel curD : Nat) (path : List Nat), (maxD - curD).toNat ≤ fuel →
      CSGNode.depth (createChild o maxD curD path) ≤ (maxD - curD).toNat := by
  intro fuel
  induction fuel with
  | zero =>
    intro curD path hf
    unfold createChild
    split
    · rename_i hc
      obtain ⟨-, hlt⟩ := hc
      omega
    · simp only [CSGNode.depth]
      omega
  | succ n ih =>
    intro curD path hf
    unfold createChild
    split
    · rename_i hc
      obtain ⟨-, hlt⟩ := hc
      simp only [CSGNode.depth, CSGNode.depthList]
      have h0 := ih (curD + 1) (0 :: path) (by omega)
      have h1 := ih (curD + 1) (1 :: path) (by omega)
      omega
    · simp only [CSGNode.depth]
      omega

/-- For a nonnegative budget, `create(maxDepth)` builds a tree of depth at
most `maxDepth`. -/
theorem createCSG_depth_le (o : CNOracle) (maxD : Int) (h : 0 ≤ maxD) :
    (CSGNode.depth (createCSG o maxD) : Int) ≤ maxD := by
  unfold createCSG
  split
  · rename_i h0
    simp only [CSGNode.depth]
    omega
  · rename_i h0
    have h1 := createChild_depth_le o maxD (maxD - 1).toNat 1 [0] (by omega)
    have h2 := createChild_depth_le o maxD (maxD - 1).toNat 1 [1] (by omega)
    simp only [CSGNode.depth, CSGNode.depthList]
    omega

/-- Replacing one list entry by a tree at most `k` deeper than the entry
raises the maximal depth of the list by at most `k`. -/
theorem depthList_set_le (k : Nat) :
    ∀ (cs : List CSGNode) (i : Nat) (c c' : CSGNode), cs[i]? = some c →
      CSGNode.depth c' ≤ CSGNode.depth c + k →
      CSGNode.depthList (cs.set i c') ≤ CSGNode.depthList cs + k := by
  intro cs
  induction cs with
  | nil => intro i c c' h _; simp at h
  | cons a as ih =>
    intro i c c' h hd
    cases i with
    | zero =>
      simp only [List.getElem?_cons_zero, Option.some.injEq] at h
      subst h
      simp only [List.set, CSGNode.depthList]
      omega
    | succ j =>
      simp only [List.getElem?_cons_succ] at h
      simp only [List.set, CSGNode.depthList]
      have := ih j c c' h hd
      omega

/-- Replacing a subtree raises the depth of the whole tree by at most the
depth of the inserted subtree. -/
theorem depth_replaceAtPath_le :
    ∀ (p : List Nat) (n s : CSGNode),
      CSGNode.depth (CSGNode.replaceAtPath n p s) ≤
        CSGNode.depth n + CSGNode.depth s := by
  intro p
  induction p with
  | nil => intro n s; simp only [CSGNode.replaceAtPath]; omega
  | cons i is ih =>
    intro n s
    cases n with
    | geo f =>
      simp only [CSGNode.replaceAtPath]
      omega
    | op t cs =>
      cases hc : cs[i]? with
      | none =>
        simp only [CSGNode.replaceAtPath, hc]
        omega
      | some c =>
        simp only [CSGNode.replaceAtPath, hc, CSGNode.depth]
        have h1 := ih c s
        have h2 := depthList_set_le (CSGNode.depth s) cs i c
          (CSGNode.replaceAtPath c is s) hc h1
        omega

/-- C6 (amended): for every input tree whose depth already respects the
budget — `depth t ≤ max_depth` — the mutated tree respects it too, on both
branches: the create-new branch builds within `max_depth` directly, and the
replace branch inserts a subtree built within the remaining budget
`max_depth - depth t`.  (For `depth t > max_depth` the bound fails; see the
counterexample.) -/
theorem mutateCSG_depth_le (maxD : Int) (o : CNOracle) (createNew : Bool)
    (p : List Nat) (t : CSGNode) (h : (CSGNode.depth t : Int) ≤ maxD) :
    (CSGNode.depth (mutateCSG maxD o createNew p t) : Int) ≤ maxD := by
  unfold mutateCSG
  split
  · exact createCSG_depth_le o maxD (by omega)
  · have h1 := createCSG_depth_le o (maxD - (CSGNode.depth t : Int)) (by omega)
    have h2 := depth_replaceAtPath_le p t
      (createCSG o (maxD - (CSGNode.depth t : Int)))
    omega

/-- Witness for `mutateCSG_depth_le` at a concrete leaf tree and budget 2. -/
theorem mutateCSG_depth_le_witness :
    ((CSGNode.depth (CSGNode.geo 0) : Int) ≤ 2) ∧
    (CSGNode.depth (mutateCSG 2 ⟨fun _ => false, fun _ => 0, fun _ => 0⟩ false []
      (CSGNode.geo 0)) : Int) ≤ 2 :=
  ⟨by decide, mutateCSG_depth_le 2 ⟨fun _ => false, fun _ => 0, fun _ => 0⟩ false []
    (CSGNode.geo 0) (by decide)⟩

/-- C6 (counterexample to the claim as stated): for an input tree of depth 2
and `max_depth = 1`, the replace branch computes the budget
`max_depth - depth(tree) = -1`, `create(-1)` still builds an operation node of
depth 1 (`maxDepth == 0` is false and no recursion fires), and replacing the
leaf at path `[0, 0]` yields a tree of depth 3 > `max_depth`.  So
`depth(mutate(t)) ≤ max_depth` does not hold for every tree `t`. -/
theorem mutateCSG_depth_counterexample :
    ¬ ((CSGNode.depth (mutateCSG 1 ⟨fun _ => false, fun _ => 0, fun _ => 0⟩ false [0, 0]
        (CSGNode.op OpType.union
          [CSGNode.op OpType.union [CSGNode.geo 0, CSGNode.geo 1], CSGNode.geo 2])) : Int)
      ≤ 1) := by
  have hc0 : createChild ⟨fun _ => false, fun _ => 0, fun _ => 0⟩ (-1) 1 [0] =
      CSGNode.geo 0 := by
    unfold createChild
    simp
  have hc1 : createChild ⟨fun _ => false, fun _ => 0, fun _ => 0⟩ (-1) 1 [1] =
      CSGNode.geo 0 := by
    unfold createChild
    simp
  have hm : mutateCSG 1 ⟨fun _ => false, fun _ => 0, fun _ => 0⟩ false [0, 0]
      (CSGNode.op OpType.union
        [CSGNode.op OpType.union [CSGNode.geo 0, CSGNode.geo 1], CSGNode.geo 2]) =
      CSGNode.op OpType.union
        [CSGNode.op OpType.union
          [CSGNode.op OpType.union [CSGNode.geo 0, CSGNode.geo 0], CSGNode.geo 1],
         CSGNode.geo 2] := by
    unfold mutateCSG createCSG
    norm_num [CSGNode.depth, CSGNode.depthList, hc0, hc1, CSGNode.replaceAtPath, opOfDraw]
  rw [hm]
  decide

/-! ## C3: two-primitive cliques pick the best of four candidates -/

/-- When no remaining candidate beats the running maximum, the selection loop
keeps the current best. -/
theorem pickBestLoop_stable (rank : CSGNode → ℚ) :
    ∀ (cands : List CSGNode) (best : Option CSGNode) (maxScore : ℚ),
      (∀ e ∈ cands, rank e ≤ maxScore) →
      pickBestLoop rank best maxScore cands = best := by
  intro cands
  induction cands with
  | nil => intro best maxScore _; rfl
  | cons a cs ih =>
    intro best maxScore h
    unfold pickBestLoop
    rw [if_neg (not_lt.mpr (h a (by simp)))]
    exact ih best maxScore (fun e he => h e (by simp [he]))

/-- The selection loop of `computeNodesForCliques` returns the leftmost
candidate of maximal rank, provided some candidate beats the initial
`-DBL_MAX` score: the returned candidate strictly outranks everything before
it and is not outranked by anything after it. -/
theorem pickBestLoop_argmax (rank : CSGNode → ℚ) :
    ∀ (cands : List CSGNode) (best : Option CSGNode) (maxScore : ℚ),
      (∃ c ∈ cands, maxScore < rank c) →
      ∃ pre c post,
        pickBestLoop rank best maxScore cands = some c ∧
        cands = pre ++ c :: post ∧
        (∀ e ∈ pre, rank e < rank c) ∧
        (∀ e ∈ post, rank e ≤ rank c) ∧
        maxScore < rank c := by
  intro cands
  induction cands with
  | nil => intro best maxScore h; simp at h
  | cons a cs ih =>
    intro best maxScore h
    by_cases ha : maxScore < rank a
    · by_cases hcs : ∃ c ∈ cs, rank a < rank c
      · obtain ⟨pre, c, post, hrun, hsplit, hpre, hpost, hlt⟩ := ih (some a) (rank a) hcs
        refine ⟨a :: pre, c, post, ?_, by simp [hsplit], ?_, hpost, by linarith⟩
        · unfold pickBestLoop
          rw [if_pos ha]
          exact hrun
        · intro e he
          rcases List.mem_cons.mp he with he | he
          · subst he; exact hlt
          · exact hpre e he
      · push_neg at hcs
        refine ⟨[], a, cs, ?_, rfl, by simp, hcs, ha⟩
        unfold pickBestLoop
        rw [if_pos ha]
        exact pickBestLoop_stable rank cs (some a) (rank a) hcs
    · have hex : ∃ c ∈ cs, maxScore < rank c := by
        obtain ⟨c, hc, hlt⟩ := h
        rcases List.mem_cons.mp hc with rfl | hc
        · exact absurd hlt ha
        · exact ⟨c, hc, hlt⟩
      obtain ⟨pre, c, post, hrun, hsplit, hpre, hpost, hlt⟩ := ih best maxScore hex
      refine ⟨a :: pre, c, post, ?_, by simp [hsplit], ?_, hpost, hlt⟩
      · unfold pickBestLoop
        rw [if_neg ha]
        exact hrun
      · intro e he
        rcases List.mem_cons.mp he with he | he
        · subst he; linarith [not_lt.mp ha]
        · exact hpre e he

/-- C3: for a clique of exactly two functions, `computeNodesForCliques`
returns — for every GA oracle `ga`, i.e. without running the GA — the pair
candidate from `{A∪B, A∩B, A\B, B\A}` whose `CSGNodeRanker` rank is maximal,
ties resolved in favour of the earlier candidate (the chosen one strictly
outranks all earlier candidates and weakly outranks all later ones).  The
hypothesis says some candidate outranks the initial `-DBL_MAX` score, which
the source needs for `bestCandidate` to be non-null. -/
theorem computeNodesForCliques_pair (geoScore : CSGNode → ℚ) (lambda negMax : ℚ)
    (ga : List Nat → CSGNode) (f0 f1 : Nat)
    (h : ∃ c ∈ candidatesForPair f0 f1, negMax < rankCSG geoScore lambda c) :
    ∃ pre best post,
      computeNodesForCliques (rankCSG geoScore lambda) negMax ga [⟨[f0, f1]⟩] =
        [(⟨[f0, f1]⟩, best)] ∧
      candidatesForPair f0 f1 = pre ++ best :: post ∧
      (∀ e ∈ pre, rankCSG geoScore lambda e < rankCSG geoScore lambda best) ∧
      (∀ e ∈ post, rankCSG geoScore lambda e ≤ rankCSG geoScore lambda best) := by
  obtain ⟨pre, c, post, hrun, hsplit, hpre, hpost, -⟩ :=
    pickBestLoop_argmax (rankCSG geoScore lambda) (candidatesForPair f0 f1) none negMax h
  refine ⟨pre, c, post, ?_, hsplit, hpre, hpost⟩
  unfold computeNodesForCliques
  simp only [List.foldr, candidatesForPair] at hrun ⊢
  rw [hrun]

/-- Witness for `computeNodesForCliques_pair` with the constant geometry
score 0, `lambda = 0` and initial score `-1`: all four candidates rank 0, and
the returned tree is the first candidate, the union. -/
theorem computeNodesForCliques_pair_witness :
    (∃ c ∈ candidatesForPair 0 1, (-1 : ℚ) < rankCSG (fun _ => 0) 0 c) ∧
    ∃ pre best post,
      computeNodesForCliques (rankCSG (fun _ => 0) 0) (-1) (fun _ => CSGNode.geo 0)
        [⟨[0, 1]⟩] = [(⟨[0, 1]⟩, best)] ∧
      candidatesForPair 0 1 = pre ++ best :: post ∧
      (∀ e ∈ pre, rankCSG (fun _ => 0) 0 e < rankCSG (fun _ => 0) 0 best) ∧
      (∀ e ∈ post, rankCSG (fun _ => 0) 0 e ≤ rankCSG (fun _ => 0) 0 best) :=
  ⟨⟨CSGNode.op OpType.union [CSGNode.geo 0, CSGNode.geo 1], by
      constructor
      · simp [candidatesForPair]
      · norm_num [rankCSG]⟩,
   computeNodesForCliques_pair (fun _ => 0) 0 (-1) (fun _ => CSGNode.geo 0) 0 1
     ⟨CSGNode.op OpType.union [CSGNode.geo 0, CSGNode.geo 1], by
        constructor
        · simp [candidatesForPair]
        · norm_num [rankCSG]⟩⟩

/-! ## C1: the geometry score of `rank2` -/

/-- Invariant of the closest-primitive fold of `rank2`: starting from a
candidate minimum `(d0, g0)`, the fold returns the minimum of `d0` and all
`|sd|` values, paired with the gradient of a primitive attaining it (or the
initial pair if nothing is smaller). -/
theorem minDistNormal_fold_spec (x : Vec3) :
    ∀ (ps : List RankPrim) (d0 : ℚ) (g0 : Vec3),
      ∃ d g, List.foldl (geoStep x) (some (d0, g0)) ps = some (d, g) ∧
        d ≤ d0 ∧ (∀ p ∈ ps, d ≤ |p.sd x|) ∧
        ((d = d0 ∧ g = g0) ∨ ∃ p ∈ ps, d = |p.sd x| ∧ g = p.grad x) := by
  intro ps
  induction ps with
  | nil => intro d0 g0; exact ⟨d0, g0, rfl, le_refl _, by simp, Or.inl ⟨rfl, rfl⟩⟩
  | cons p ps ih =>
    intro d0 g0
    by_cases hlt : |p.sd x| < d0
    · obtain ⟨d, g, hrun, hle, hall, hatt⟩ := ih |p.sd x| (p.grad x)
      refine ⟨d, g, ?_, by linarith, ?_, ?_⟩
      · simpa [List.foldl_cons, geoStep, hlt] using hrun
      · intro q hq
        rcases List.mem_cons.mp hq with rfl | hq
        · exact hle
        · exact hall q hq
      · rcases hatt with ⟨hd, hg⟩ | ⟨q, hq, hd, hg⟩
        · exact Or.inr ⟨p, by simp, hd, hg⟩
        · exact Or.inr ⟨q, by simp [hq], hd, hg⟩
    · obtain ⟨d, g, hrun, hle, hall, hatt⟩ := ih d0 g0
      refine ⟨d, g, ?_, hle, ?_, ?_⟩
      · simpa [List.foldl_cons, geoStep, hlt] using hrun
      · intro q hq
        rcases List.mem_cons.mp hq with rfl | hq
        · linarith [not_lt.mp hlt]
        · exact hall q hq
      · rcases hatt with ⟨hd, hg⟩ | ⟨q, hq, hd, hg⟩
        · exact Or.inl ⟨hd, hg⟩
        · exact Or.inr ⟨q, by simp [hq], hd, hg⟩

/-- C1 (amended): in `rank2`'s geometry score, for every point `x` with
normal `nu`, the tracked distance `d` is the minimum of `|sd_P(x)|` over the
primitives of the ranked set **only** (the static primitives are never
consulted by `rank2`, whatever its `ignoreStaticPrimitives` argument says),
`g` is the raw gradient of a primitive attaining the minimum, and the point
counts as valid iff `d < 0.0001` — the hard-coded `delta` of
`primitive_extraction.cpp:1241`, not the ranker's `distanceEpsilon` — and
`nu · ĝ > 0.9`. -/
theorem rank2ValidPoint_minimum (ps : List RankPrim) (x nu : Vec3) (h : ps ≠ []) :
    ∃ d g, minDistNormal ps x = some (d, g) ∧
      (∀ p ∈ ps, d ≤ |p.sd x|) ∧ (∃ p ∈ ps, d = |p.sd x| ∧ g = p.grad x) ∧
      (rank2ValidPoint ps x nu = true ↔ d < 1 / 10000 ∧ dotNormalizedGt nu g (9 / 10)) := by
  match ps, h with
  | p :: ps, _ =>
    obtain ⟨d, g, hrun, hle, hall, hatt⟩ := minDistNormal_fold_spec x ps |p.sd x| (p.grad x)
    have hmin : minDistNormal (p :: ps) x = some (d, g) := by
      simpa [minDistNormal, List.foldl_cons, geoStep] using hrun
    refine ⟨d, g, hmin, ?_, ?_, ?_⟩
    · intro q hq
      rcases List.mem_cons.mp hq with rfl | hq
      · exact hle
      · exact hall q hq
    · rcases hatt with ⟨hd, hg⟩ | ⟨q, hq, hd, hg⟩
      · exact ⟨p, by simp, hd, hg⟩
      · exact ⟨q, by simp [hq], hd, hg⟩
    · simp [rank2ValidPoint, hmin]

/-- Witness for `rank2ValidPoint_minimum` on a one-primitive set whose
signed distance at the origin is `1/100` with unit gradient. -/
theorem rank2ValidPoint_minimum_witness :
    ([⟨fun _ => 1 / 100, fun _ => ⟨1, 0, 0⟩⟩] : List RankPrim) ≠ [] ∧
    ∃ d g,
      minDistNormal [⟨fun _ => 1 / 100, fun _ => ⟨1, 0, 0⟩⟩] Vec3.zero = some (d, g) ∧
      (∀ p ∈ ([⟨fun _ => 1 / 100, fun _ => ⟨1, 0, 0⟩⟩] : List RankPrim),
        d ≤ |p.sd Vec3.zero|) ∧
      (∃ p ∈ ([⟨fun _ => 1 / 100, fun _ => ⟨1, 0, 0⟩⟩] : List RankPrim),
        d = |p.sd Vec3.zero| ∧ g = p.grad Vec3.zero) ∧
      (rank2ValidPoint [⟨fun _ => 1 / 100, fun _ => ⟨1, 0, 0⟩⟩] Vec3.zero ⟨1, 0, 0⟩ = true ↔
        d < 1 / 10000 ∧ dotNormalizedGt ⟨1, 0, 0⟩ g (9 / 10)) :=
  ⟨by simp,
   rank2ValidPoint_minimum [⟨fun _ => 1 / 100, fun _ => ⟨1, 0, 0⟩⟩] Vec3.zero ⟨1, 0, 0⟩
     (by simp)⟩

/-- C1 (counterexample to the claim as stated): a ranker with
`distanceEpsilon = 0.2` (the value used by `extractPrimitivesWithGA`), no
static primitives, and a single ranked primitive at signed distance `1/100`
with gradient equal to the point normal.  The claim's validity predicate —
distance below `distance_ε` and aligned normal — accepts the point, but
`rank2` rejects it, because the code compares against the hard-coded
`0.0001`, not against `distanceEpsilon`. -/
theorem rank2ValidPoint_claim_counterexample :
    rank2ValidPoint [⟨fun _ => 1 / 100, fun _ => ⟨1, 0, 0⟩⟩] Vec3.zero ⟨1, 0, 0⟩ = false ∧
    specValidPoint
      { pc := [], staticPrimitives := [], distanceEpsilon := 1 / 5,
        maxPrimitiveSetSize := 50 }
      [⟨fun _ => 1 / 100, fun _ => ⟨1, 0, 0⟩⟩] false Vec3.zero ⟨1, 0, 0⟩ = true := by
  constructor
  · norm_num [rank2ValidPoint, minDistNormal, geoStep, abs_of_nonneg]
  · norm_num [specValidPoint, minDistNormal, geoStep, dotNormalizedGt, Vec3.dot,
      Vec3.normSq, abs_of_nonneg]

/-! ## C4: box construction flips plane pairs -/

/-- A nonnegative quotient of nonzero rationals has numerator and denominator
of equal sign. -/
theorem div_nonneg_sign {A B : ℚ} (hA : A ≠ 0) (hB : B ≠ 0) (h : 0 ≤ A / B) :
    0 < A * B := by
  have h' : 0 < A / B := lt_of_le_of_ne h (Ne.symm (div_ne_zero hA hB))
  rcases div_pos_iff.mp h' with ⟨ha, hb⟩ | ⟨ha, hb⟩ <;> nlinarith

/-- A negative quotient has numerator and denominator of opposite signs. -/
theorem div_neg_sign {A B : ℚ} (hB : B ≠ 0) (h : ¬ 0 ≤ A / B) : A * B < 0 := by
  push_neg at h
  rcases div_neg_iff.mp h with ⟨ha, hb⟩ | ⟨ha, hb⟩ <;> nlinarith

/-- The flipping step of `createBoxPrimitive` orients each pair of planes
**away** from each other: after the flip, each plane's normal points to the
side opposite its partner plane (negative ray parameter in both directions),
the outward orientation a `max`-based polytope needs.  Nondegeneracy: the
normals are not perpendicular and neither plane's point lies on the partner
plane. -/
theorem flipPair_facesAway (a b : Manifold) (hB : Vec3.dot a.n b.n ≠ 0)
    (hA : Vec3.dot (Vec3.sub b.p a.p) b.n ≠ 0)
    (hC : Vec3.dot (Vec3.sub a.p b.p) a.n ≠ 0) :
    ((flipPair a b).1.p = a.p ∧ (flipPair a b).2.p = b.p) ∧
    raySide (flipPair a b).1.p (flipPair a b).1.n (flipPair a b).2.p (flipPair a b).2.n < 0 ∧
    raySide (flipPair a b).2.p (flipPair a b).2.n (flipPair a b).1.p (flipPair a b).1.n < 0 := by
  have hcomm : Vec3.dot b.n a.n = Vec3.dot a.n b.n := Vec3.dot_comm b.n a.n
  unfold flipPair raySide
  simp only [hcomm]
  by_cases h1 : (0 : ℚ) ≤ Vec3.dot (Vec3.sub b.p a.p) b.n / Vec3.dot a.n b.n
  · have s1 := div_nonneg_sign hA hB h1
    by_cases h2 : (0 : ℚ) ≤ Vec3.dot (Vec3.sub a.p b.p) a.n / Vec3.dot a.n b.n
    · have s2 := div_nonneg_sign hC hB h2
      simp only [h1, h2, if_true, Vec3.dot_neg_left, Vec3.dot_neg_right, neg_neg, hcomm]
      exact ⟨⟨trivial, trivial⟩, by nlinarith, by nlinarith⟩
    · have s2 := div_neg_sign hB h2
      simp only [h1, h2, if_true, if_false, Vec3.dot_neg_left, Vec3.dot_neg_right, neg_neg,
        hcomm]
      exact ⟨⟨trivial, trivial⟩, by nlinarith, by nlinarith⟩
  · have s1 := div_neg_sign hB h1
    by_cases h2 : (0 : ℚ) ≤ Vec3.dot (Vec3.sub a.p b.p) a.n / Vec3.dot a.n b.n
    · have s2 := div_nonneg_sign hC hB h2
      simp only [h1, h2, if_true, if_false, Vec3.dot_neg_left, Vec3.dot_neg_right, neg_neg,
        hcomm]
      exact ⟨⟨trivial, trivial⟩, by nlinarith, by nlinarith⟩
    · have s2 := div_neg_sign hB h2
      simp only [h1, h2, if_false, Vec3.dot_neg_left, Vec3.dot_neg_right, neg_neg, hcomm]
      exact ⟨⟨trivial, trivial⟩, by nlinarith, by nlinarith⟩

/-- `createBoxPrimitive` returns `Primitive::None()` for every plane set
without exactly 6 members. -/
theorem createBoxPrimitive_not6 (ec : List Vec3 → List Vec3 → Bool)
    (planes : List Manifold) (h : planes.length ≠ 6) :
    createBoxPrimitive ec planes = Primitive.nonePrim := by
  unfold createBoxPrimitive
  rcases planes with _ | ⟨a, _ | ⟨b, _ | ⟨c, _ | ⟨d, _ | ⟨e, _ | ⟨f, _ | ⟨g, rest⟩⟩⟩⟩⟩⟩⟩
  all_goals first
  | rfl
  | simp at h

/-- C4 (amended): `createBoxPrimitive` returns `None` when the plane set does
not have exactly 6 planes and when the polytope-emptiness test fires;
otherwise it returns a Box whose manifold set holds the six planes as three
pairs (indices (0,1), (2,3), (4,5)), each keeping its original point, whose
normals have been flipped, where necessary, so that the pair's planes face
**away from each other** (each normal points to the side opposite its partner
plane; the spec's "face each other"/"face inward" is the opposite of what the
construction establishes — see the counterexample).  Nondegeneracy per pair:
normals not perpendicular, neither point on the partner plane. -/
theorem createBoxPrimitive_spec (ec : List Vec3 → List Vec3 → Bool)
    (q0 q1 q2 q3 q4 q5 : Manifold)
    (h01B : Vec3.dot q0.n q1.n ≠ 0) (h01A : Vec3.dot (Vec3.sub q1.p q0.p) q1.n ≠ 0)
    (h01C : Vec3.dot (Vec3.sub q0.p q1.p) q0.n ≠ 0)
    (h23B : Vec3.dot q2.n q3.n ≠ 0) (h23A : Vec3.dot (Vec3.sub q3.p q2.p) q3.n ≠ 0)
    (h23C : Vec3.dot (Vec3.sub q2.p q3.p) q2.n ≠ 0)
    (h45B : Vec3.dot q4.n q5.n ≠ 0) (h45A : Vec3.dot (Vec3.sub q5.p q4.p) q5.n ≠ 0)
    (h45C : Vec3.dot (Vec3.sub q4.p q5.p) q4.n ≠ 0) :
    (∀ planes : List Manifold, planes.length ≠ 6 →
      createBoxPrimitive ec planes = Primitive.nonePrim) ∧
    ∃ m0 m1 m2 m3 m4 m5 : Manifold,
      m0.p = q0.p ∧ m1.p = q1.p ∧ m2.p = q2.p ∧ m3.p = q3.p ∧ m4.p = q4.p ∧ m5.p = q5.p ∧
      raySide m0.p m0.n m1.p m1.n < 0 ∧ raySide m1.p m1.n m0.p m0.n < 0 ∧
      raySide m2.p m2.n m3.p m3.n < 0 ∧ raySide m3.p m3.n m2.p m2.n < 0 ∧
      raySide m4.p m4.n m5.p m5.n < 0 ∧ raySide m5.p m5.n m4.p m4.n < 0 ∧
      ((ec [q0.p, q1.p, q2.p, q3.p, q4.p, q5.p] [m0.n, m1.n, m2.n, m3.n, m4.n, m5.n] = true ∧
        createBoxPrimitive ec [q0, q1, q2, q3, q4, q5] = Primitive.nonePrim) ∨
       (ec [q0.p, q1.p, q2.p, q3.p, q4.p, q5.p] [m0.n, m1.n, m2.n, m3.n, m4.n, m5.n] = false ∧
        createBoxPrimitive ec [q0, q1, q2, q3, q4, q5] =
          { ptype := PrimitiveType.box,
            imFunc := ImFunc.polytope [q0.p, q1.p, q2.p, q3.p, q4.p, q5.p]
              [m0.n, m1.n, m2.n, m3.n, m4.n, m5.n],
            ms := [m0, m1, m2, m3, m4, m5], cutout := false })) := by
  refine ⟨createBoxPrimitive_not6 ec, ?_⟩
  obtain ⟨⟨hp0, hp1⟩, hr01, hr10⟩ := flipPair_facesAway q0 q1 h01B h01A h01C
  obtain ⟨⟨hp2, hp3⟩, hr23, hr32⟩ := flipPair_facesAway q2 q3 h23B h23A h23C
  obtain ⟨⟨hp4, hp5⟩, hr45, hr54⟩ := flipPair_facesAway q4 q5 h45B h45A h45C
  refine ⟨(flipPair q0 q1).1, (flipPair q0 q1).2, (flipPair q2 q3).1, (flipPair q2 q3).2,
    (flipPair q4 q5).1, (flipPair q4 q5).2,
    hp0, hp1, hp2, hp3, hp4, hp5, hr01, hr10, hr23, hr32, hr45, hr54, ?_⟩
  by_cases hec : ec [q0.p, q1.p, q2.p, q3.p, q4.p, q5.p]
      [(flipPair q0 q1).1.n, (flipPair q0 q1).2.n, (flipPair q2 q3).1.n,
       (flipPair q2 q3).2.n, (flipPair q4 q5).1.n, (flipPair q4 q5).2.n] = true
  · refine Or.inl ⟨hec, ?_⟩
    unfold createBoxPrimitive
    simp only [hec, if_true]
  · refine Or.inr ⟨by simpa using hec, ?_⟩
    unfold createBoxPrimitive
    simp only [Bool.not_eq_true] at hec
    simp only [hec, if_false, Bool.false_eq_true]

/-- Witness for `createBoxPrimitive_spec` at the six axis-aligned planes of
the unit cube, all normals pointing in positive axis direction, with an
emptiness test that never fires. -/
theorem createBoxPrimitive_spec_witness :
    (Vec3.dot (⟨ManifoldType.plane, ⟨0, 0, 0⟩, ⟨1, 0, 0⟩, Vec3.zero, []⟩ : Manifold).n
       (⟨ManifoldType.plane, ⟨1, 0, 0⟩, ⟨1, 0, 0⟩, Vec3.zero, []⟩ : Manifold).n ≠ 0) ∧
    (∀ planes : List Manifold, planes.length ≠ 6 →
      createBoxPrimitive (fun _ _ => false) planes = Primitive.nonePrim) ∧
    ∃ m0 m1 m2 m3 m4 m5 : Manifold,
      m0.p = (⟨ManifoldType.plane, ⟨0, 0, 0⟩, ⟨1, 0, 0⟩, Vec3.zero, []⟩ : Manifold).p ∧
      m1.p = (⟨ManifoldType.plane, ⟨1, 0, 0⟩, ⟨1, 0, 0⟩, Vec3.zero, []⟩ : Manifold).p ∧
      m2.p = (⟨ManifoldType.plane, ⟨0, 0, 0⟩, ⟨0, 1, 0⟩, Vec3.zero, []⟩ : Manifold).p ∧
      m3.p = (⟨ManifoldType.plane, ⟨0, 1, 0⟩, ⟨0, 1, 0⟩, Vec3.zero, []⟩ : Manifold).p ∧
      m4.p = (⟨ManifoldType.plane, ⟨0, 0, 0⟩, ⟨0, 0, 1⟩, Vec3.zero, []⟩ : Manifold).p ∧
      m5.p = (⟨ManifoldType.plane, ⟨0, 0, 1⟩, ⟨0, 0, 1⟩, Vec3.zero, []⟩ : Manifold).p ∧
      raySide m0.p m0.n m1.p m1.n < 0 ∧ raySide m1.p m1.n m0.p m0.n < 0 ∧
      raySide m2.p m2.n m3.p m3.n < 0 ∧ raySide m3.p m3.n m2.p m2.n < 0 ∧
      raySide m4.p m4.n m5.p m5.n < 0 ∧ raySide m5.p m5.n m4.p m4.n < 0 ∧
      (((fun (_ : List Vec3) (_ : List Vec3) => false) [⟨0, 0, 0⟩, ⟨1, 0, 0⟩, ⟨0, 0, 0⟩,
          ⟨0, 1, 0⟩, ⟨0, 0, 0⟩, ⟨0, 0, 1⟩] [m0.n, m1.n, m2.n, m3.n, m4.n, m5.n] = true ∧
        createBoxPrimitive (fun _ _ => false)
          [⟨ManifoldType.plane, ⟨0, 0, 0⟩, ⟨1, 0, 0⟩, Vec3.zero, []⟩,
           ⟨ManifoldType.plane, ⟨1, 0, 0⟩, ⟨1, 0, 0⟩, Vec3.zero, []⟩,
           ⟨ManifoldType.plane, ⟨0, 0, 0⟩, ⟨0, 1, 0⟩, Vec3.zero, []⟩,
           ⟨ManifoldType.plane, ⟨0, 1, 0⟩, ⟨0, 1, 0⟩, Vec3.zero, []⟩,
           ⟨ManifoldType.plane, ⟨0, 0, 0⟩, ⟨0, 0, 1⟩, Vec3.zero, []⟩,
           ⟨ManifoldType.plane, ⟨0, 0, 1⟩, ⟨0, 0, 1⟩, Vec3.zero, []⟩] =
          Primitive.nonePrim) ∨
       ((fun (_ : List Vec3) (_ : List Vec3) => false) [⟨0, 0, 0⟩, ⟨1, 0, 0⟩, ⟨0, 0, 0⟩,
          ⟨0, 1, 0⟩, ⟨0, 0, 0⟩, ⟨0, 0, 1⟩] [m0.n, m1.n, m2.n, m3.n, m4.n, m5.n] = false ∧
        createBoxPrimitive (fun _ _ => false)
          [⟨ManifoldType.plane, ⟨0, 0, 0⟩, ⟨1, 0, 0⟩, Vec3.zero, []⟩,
           ⟨ManifoldType.plane, ⟨1, 0, 0⟩, ⟨1, 0, 0⟩, Vec3.zero, []⟩,
           ⟨ManifoldType.plane, ⟨0, 0, 0⟩, ⟨0, 1, 0⟩, Vec3.zero, []⟩,
           ⟨ManifoldType.plane, ⟨0, 1, 0⟩, ⟨0, 1, 0⟩, Vec3.zero, []⟩,
           ⟨ManifoldType.plane, ⟨0, 0, 0⟩, ⟨0, 0, 1⟩, Vec3.zero, []⟩,
           ⟨ManifoldType.plane, ⟨0, 0, 1⟩, ⟨0, 0, 1⟩, Vec3.zero, []⟩] =
          { ptype := PrimitiveType.box,
            imFunc := ImFunc.polytope [⟨0, 0, 0⟩, ⟨1, 0, 0⟩, ⟨0, 0, 0⟩, ⟨0, 1, 0⟩,
              ⟨0, 0, 0⟩, ⟨0, 0, 1⟩] [m0.n, m1.n, m2.n, m3.n, m4.n, m5.n],
            ms := [m0, m1, m2, m3, m4, m5], cutout := false })) :=
  ⟨by norm_num [Vec3.dot],
   createBoxPrimitive_spec (fun _ _ => false)
     ⟨ManifoldType.plane, ⟨0, 0, 0⟩, ⟨1, 0, 0⟩, Vec3.zero, []⟩
     ⟨ManifoldType.plane, ⟨1, 0, 0⟩, ⟨1, 0, 0⟩, Vec3.zero, []⟩
     ⟨ManifoldType.plane, ⟨0, 0, 0⟩, ⟨0, 1, 0⟩, Vec3.zero, []⟩
     ⟨ManifoldType.plane, ⟨0, 1, 0⟩, ⟨0, 1, 0⟩, Vec3.zero, []⟩
     ⟨ManifoldType.plane, ⟨0, 0, 0⟩, ⟨0, 0, 1⟩, Vec3.zero, []⟩
     ⟨ManifoldType.plane, ⟨0, 0, 1⟩, ⟨0, 0, 1⟩, Vec3.zero, []⟩
     (by norm_num [Vec3.dot]) (by norm_num [Vec3.dot, Vec3.sub])
     (by norm_num [Vec3.dot, Vec3.sub]) (by norm_num [Vec3.dot])
     (by norm_num [Vec3.dot, Vec3.sub]) (by norm_num [Vec3.dot, Vec3.sub])
     (by norm_num [Vec3.dot]) (by norm_num [Vec3.dot, Vec3.sub])
     (by norm_num [Vec3.dot, Vec3.sub])⟩

/-- C4 (counterexample to the claim as stated): for the unit-cube plane set
with both normals of the first pair pointing in the positive x direction, the
constructed box's first pair has normals `(-1,0,0)` at the origin and
`(1,0,0)` at `(1,0,0)`: each normal points away from its partner plane, so
the pair's planes do **not** face each other (the first plane does not face
the second), contrary to the claim's "flipped ... so that the pair's planes
face each other". -/
theorem createBoxPrimitive_claim_counterexample :
    (createBoxPrimitive (fun _ _ => false)
      [⟨ManifoldType.plane, ⟨0, 0, 0⟩, ⟨1, 0, 0⟩, Vec3.zero, []⟩,
       ⟨ManifoldType.plane, ⟨1, 0, 0⟩, ⟨1, 0, 0⟩, Vec3.zero, []⟩,
       ⟨ManifoldType.plane, ⟨0, 0, 0⟩, ⟨0, 1, 0⟩, Vec3.zero, []⟩,
       ⟨ManifoldType.plane, ⟨0, 1, 0⟩, ⟨0, 1, 0⟩, Vec3.zero, []⟩,
       ⟨ManifoldType.plane, ⟨0, 0, 0⟩, ⟨0, 0, 1⟩, Vec3.zero, []⟩,
       ⟨ManifoldType.plane, ⟨0, 0, 1⟩, ⟨0, 0, 1⟩, Vec3.zero, []⟩]).ptype =
      PrimitiveType.box ∧
    (createBoxPrimitive (fun _ _ => false)
      [⟨ManifoldType.plane, ⟨0, 0, 0⟩, ⟨1, 0, 0⟩, Vec3.zero, []⟩,
       ⟨ManifoldType.plane, ⟨1, 0, 0⟩, ⟨1, 0, 0⟩, Vec3.zero, []⟩,
       ⟨ManifoldType.plane, ⟨0, 0, 0⟩, ⟨0, 1, 0⟩, Vec3.zero, []⟩,
       ⟨ManifoldType.plane, ⟨0, 1, 0⟩, ⟨0, 1, 0⟩, Vec3.zero, []⟩,
       ⟨ManifoldType.plane, ⟨0, 0, 0⟩, ⟨0, 0, 1⟩, Vec3.zero, []⟩,
       ⟨ManifoldType.plane, ⟨0, 0, 1⟩, ⟨0, 0, 1⟩, Vec3.zero, []⟩]).ms[0]? =
      some ⟨ManifoldType.plane, ⟨0, 0, 0⟩, ⟨-1, 0, 0⟩, Vec3.zero, []⟩ ∧
    (createBoxPrimitive (fun _ _ => false)
      [⟨ManifoldType.plane, ⟨0, 0, 0⟩, ⟨1, 0, 0⟩, Vec3.zero, []⟩,
       ⟨ManifoldType.plane, ⟨1, 0, 0⟩, ⟨1, 0, 0⟩, Vec3.zero, []⟩,
       ⟨ManifoldType.plane, ⟨0, 0, 0⟩, ⟨0, 1, 0⟩, Vec3.zero, []⟩,
       ⟨ManifoldType.plane, ⟨0, 1, 0⟩, ⟨0, 1, 0⟩, Vec3.zero, []⟩,
       ⟨ManifoldType.plane, ⟨0, 0, 0⟩, ⟨0, 0, 1⟩, Vec3.zero, []⟩,
       ⟨ManifoldType.plane, ⟨0, 0, 1⟩, ⟨0, 0, 1⟩, Vec3.zero, []⟩]).ms[1]? =
      some ⟨ManifoldType.plane, ⟨1, 0, 0⟩, ⟨1, 0, 0⟩, Vec3.zero, []⟩ ∧
    ¬ facesToward ⟨0, 0, 0⟩ ⟨-1, 0, 0⟩ ⟨1, 0, 0⟩ ⟨1, 0, 0⟩ := by
  refine ⟨?_, ?_, ?_, ?_⟩
  · norm_num [createBoxPrimitive, flipPair, Vec3.dot, Vec3.sub, Vec3.neg]
  · norm_num [createBoxPrimitive, flipPair, Vec3.dot, Vec3.sub, Vec3.neg]
  · norm_num [createBoxPrimitive, flipPair, Vec3.dot, Vec3.sub, Vec3.neg]
  · norm_num [facesToward, raySide, Vec3.dot, Vec3.sub]

/-! ## C5: cylinder caps and height -/

/-- The two-cap cylinder constructor intersects the axis with each cap plane:
the computed points are exactly the (unique) axis-plane intersection points,
and the stored squared height is their squared distance. -/
theorem cylinderFromTwoCaps_spec (m q0 q1 : Manifold)
    (h0 : Vec3.dot m.n q0.n ≠ 0) (h1 : Vec3.dot m.n q1.n ≠ 0) :
    ∃ i0 i1 : Vec3,
      liesOnAxis m i0 ∧ liesOnPlane i0 q0 ∧
      (∀ j, liesOnAxis m j → liesOnPlane j q0 → j = i0) ∧
      liesOnAxis m i1 ∧ liesOnPlane i1 q1 ∧
      (∀ j, liesOnAxis m j → liesOnPlane j q1 → j = i1) ∧
      cylinderFromTwoCaps m q0 q1 =
        { ptype := PrimitiveType.cylinder,
          imFunc := ImFunc.cylinder m.r.x (Vec3.distSq i0 i1)
            (Vec3.add i0 (Vec3.smul (1 / 2) (Vec3.sub i1 i0))),
          ms := [m, q0, q1], cutout := false } := by
  refine ⟨Vec3.add (Vec3.smul (Vec3.dot (Vec3.sub q0.p m.p) q0.n / Vec3.dot m.n q0.n) m.n) m.p,
    Vec3.add (Vec3.smul (Vec3.dot (Vec3.sub q1.p m.p) q1.n / Vec3.dot m.n q1.n) m.n) m.p,
    ⟨_, rfl⟩, ?_, ?_, ⟨_, rfl⟩, ?_, ?_, rfl⟩
  · unfold liesOnPlane
    rw [Vec3.dot_lineparam, Vec3.dot_sub_swap m.p q0.p]
    field_simp
  · rintro j ⟨t, rfl⟩ hp
    unfold liesOnPlane at hp
    rw [Vec3.dot_lineparam, Vec3.dot_sub_swap m.p q0.p] at hp
    have ht : t = Vec3.dot (Vec3.sub q0.p m.p) q0.n / Vec3.dot m.n q0.n := by
      field_simp
      linarith
    rw [ht]
  · unfold liesOnPlane
    rw [Vec3.dot_lineparam, Vec3.dot_sub_swap m.p q1.p]
    field_simp
  · rintro j ⟨t, rfl⟩ hp
    unfold liesOnPlane at hp
    rw [Vec3.dot_lineparam, Vec3.dot_sub_swap m.p q1.p] at hp
    have ht : t = Vec3.dot (Vec3.sub q1.p m.p) q1.n / Vec3.dot m.n q1.n := by
      field_simp
      linarith
    rw [ht]

/-- C5 (amended): for both ways a cylinder primitive acquires two cap planes
— two given caps, or one given cap whose partner is synthesised from the
point cloud — the stored (squared) height equals the (squared) distance
between the two points where the cylinder axis meets the two cap planes,
provided the axis is not parallel to either cap.  The synthesised partner
cap is exactly antiparallel to the given one (`n = -q0.n`), hence parallel
to it within every angular tolerance; for two **given** caps no parallelism
is checked or guaranteed by the constructor (see the counterexample). -/
theorem createCylinderPrimitive_caps (m q0 q1 : Manifold)
    (h0 : Vec3.dot m.n q0.n ≠ 0) (h1 : Vec3.dot m.n q1.n ≠ 0) :
    (∃ i0 i1 : Vec3,
      liesOnAxis m i0 ∧ liesOnPlane i0 q0 ∧
      (∀ j, liesOnAxis m j → liesOnPlane j q0 → j = i0) ∧
      liesOnAxis m i1 ∧ liesOnPlane i1 q1 ∧
      (∀ j, liesOnAxis m j → liesOnPlane j q1 → j = i1) ∧
      createCylinderPrimitive m [q0, q1] =
        { ptype := PrimitiveType.cylinder,
          imFunc := ImFunc.cylinder m.r.x (Vec3.distSq i0 i1)
            (Vec3.add i0 (Vec3.smul (1 / 2) (Vec3.sub i1 i0))),
          ms := [m, q0, q1], cutout := false }) ∧
    ((estimateSecondCylinderPlaneFromPointCloud m q0).n = Vec3.neg q0.n ∧
     ∃ i0 i2 : Vec3,
      liesOnAxis m i0 ∧ liesOnPlane i0 q0 ∧
      (∀ j, liesOnAxis m j → liesOnPlane j q0 → j = i0) ∧
      liesOnAxis m i2 ∧ liesOnPlane i2 (estimateSecondCylinderPlaneFromPointCloud m q0) ∧
      (∀ j, liesOnAxis m j →
        liesOnPlane j (estimateSecondCylinderPlaneFromPointCloud m q0) → j = i2) ∧
      createCylinderPrimitive m [q0] =
        { ptype := PrimitiveType.cylinder,
          imFunc := ImFunc.cylinder m.r.x (Vec3.distSq i0 i2)
            (Vec3.add i0 (Vec3.smul (1 / 2) (Vec3.sub i2 i0))),
          ms := [m, q0, estimateSecondCylinderPlaneFromPointCloud m q0],
          cutout := false }) := by
  have hest : (estimateSecondCylinderPlaneFromPointCloud m q0).n = Vec3.neg q0.n := rfl
  have h2 : Vec3.dot m.n (estimateSecondCylinderPlaneFromPointCloud m q0).n ≠ 0 := by
    rw [hest, Vec3.dot_neg_right]
    exact neg_ne_zero.mpr h0
  constructor
  · obtain ⟨i0, i1, a1, a2, a3, a4, a5, a6, heq⟩ := cylinderFromTwoCaps_spec m q0 q1 h0 h1
    exact ⟨i0, i1, a1, a2, a3, a4, a5, a6, heq⟩
  · obtain ⟨i0, i2, a1, a2, a3, a4, a5, a6, heq⟩ :=
      cylinderFromTwoCaps_spec m q0 (estimateSecondCylinderPlaneFromPointCloud m q0) h0 h2
    exact ⟨hest, i0, i2, a1, a2, a3, a4, a5, a6, heq⟩

/-- Witness for `createCylinderPrimitive_caps`: unit cylinder along the
x-axis with caps at `x = 2` and `x = 5`. -/
theorem createCylinderPrimitive_caps_witness :
    (Vec3.dot (⟨ManifoldType.cylinder, ⟨0, 0, 0⟩, ⟨1, 0, 0⟩, ⟨1, 0, 0⟩, [⟨0, 0, 0⟩]⟩ :
        Manifold).n (⟨ManifoldType.plane, ⟨2, 0, 0⟩, ⟨1, 0, 0⟩, Vec3.zero, []⟩ :
        Manifold).n ≠ 0) ∧
    (∃ i0 i1 : Vec3,
      liesOnAxis ⟨ManifoldType.cylinder, ⟨0, 0, 0⟩, ⟨1, 0, 0⟩, ⟨1, 0, 0⟩, [⟨0, 0, 0⟩]⟩ i0 ∧
      liesOnPlane i0 ⟨ManifoldType.plane, ⟨2, 0, 0⟩, ⟨1, 0, 0⟩, Vec3.zero, []⟩ ∧
      (∀ j, liesOnAxis ⟨ManifoldType.cylinder, ⟨0, 0, 0⟩, ⟨1, 0, 0⟩, ⟨1, 0, 0⟩,
          [⟨0, 0, 0⟩]⟩ j →
        liesOnPlane j ⟨ManifoldType.plane, ⟨2, 0, 0⟩, ⟨1, 0, 0⟩, Vec3.zero, []⟩ → j = i0) ∧
      liesOnAxis ⟨ManifoldType.cylinder, ⟨0, 0, 0⟩, ⟨1, 0, 0⟩, ⟨1, 0, 0⟩, [⟨0, 0, 0⟩]⟩ i1 ∧
      liesOnPlane i1 ⟨ManifoldType.plane, ⟨5, 0, 0⟩, ⟨1, 0, 0⟩, Vec3.zero, []⟩ ∧
      (∀ j, liesOnAxis ⟨ManifoldType.cylinder, ⟨0, 0, 0⟩, ⟨1, 0, 0⟩, ⟨1, 0, 0⟩,
          [⟨0, 0, 0⟩]⟩ j →
        liesOnPlane j ⟨ManifoldType.plane, ⟨5, 0, 0⟩, ⟨1, 0, 0⟩, Vec3.zero, []⟩ → j = i1) ∧
      createCylinderPrimitive ⟨ManifoldType.cylinder, ⟨0, 0, 0⟩, ⟨1, 0, 0⟩, ⟨1, 0, 0⟩,
          [⟨0, 0, 0⟩]⟩
        [⟨ManifoldType.plane, ⟨2, 0, 0⟩, ⟨1, 0, 0⟩, Vec3.zero, []⟩,
         ⟨ManifoldType.plane, ⟨5, 0, 0⟩, ⟨1, 0, 0⟩, Vec3.zero, []⟩] =
        { ptype := PrimitiveType.cylinder,
          imFunc := ImFunc.cylinder
            (⟨ManifoldType.cylinder, ⟨0, 0, 0⟩, ⟨1, 0, 0⟩, ⟨1, 0, 0⟩,
              [⟨0, 0, 0⟩]⟩ : Manifold).r.x
            (Vec3.distSq i0 i1) (Vec3.add i0 (Vec3.smul (1 / 2) (Vec3.sub i1 i0))),
          ms := [⟨ManifoldType.cylinder, ⟨0, 0, 0⟩, ⟨1, 0, 0⟩, ⟨1, 0, 0⟩, [⟨0, 0, 0⟩]⟩,
                 ⟨ManifoldType.plane, ⟨2, 0, 0⟩, ⟨1, 0, 0⟩, Vec3.zero, []⟩,
                 ⟨ManifoldType.plane, ⟨5, 0, 0⟩, ⟨1, 0, 0⟩, Vec3.zero, []⟩],
          cutout := false }) :=
  ⟨by norm_num [Vec3.dot],
   ((createCylinderPrimitive_caps
      ⟨ManifoldType.cylinder, ⟨0, 0, 0⟩, ⟨1, 0, 0⟩, ⟨1, 0, 0⟩, [⟨0, 0, 0⟩]⟩
      ⟨ManifoldType.plane, ⟨2, 0, 0⟩, ⟨1, 0, 0⟩, Vec3.zero, []⟩
      ⟨ManifoldType.plane, ⟨5, 0, 0⟩, ⟨1, 0, 0⟩, Vec3.zero, []⟩
      (by norm_num [Vec3.dot]) (by norm_num [Vec3.dot]))).1⟩

/-- C5 (counterexample to the claim as stated): `createCylinderPrimitive`
happily builds a Cylinder primitive from two given cap planes that are far
from parallel — normals `(1,0,0)` and `(3/5, 4/5, 0)`, at |cos| = 3/5 — so
the caps are not parallel within any tolerance whose cosine is at least
`9/10`; in particular not within the creator's `angle_ε = π/9`
(`cos(π/9) > 9/10`).  The constructor performs no parallelism check. -/
theorem createCylinderPrimitive_claim_counterexample :
    (createCylinderPrimitive
      ⟨ManifoldType.cylinder, ⟨0, 0, 0⟩, ⟨1, 0, 0⟩, ⟨1, 0, 0⟩, [⟨0, 0, 0⟩]⟩
      [⟨ManifoldType.plane, ⟨2, 0, 0⟩, ⟨1, 0, 0⟩, Vec3.zero, []⟩,
       ⟨ManifoldType.plane, ⟨5, 0, 0⟩, ⟨3 / 5, 4 / 5, 0⟩, Vec3.zero, []⟩]).ptype =
      PrimitiveType.cylinder ∧
    (createCylinderPrimitive
      ⟨ManifoldType.cylinder, ⟨0, 0, 0⟩, ⟨1, 0, 0⟩, ⟨1, 0, 0⟩, [⟨0, 0, 0⟩]⟩
      [⟨ManifoldType.plane, ⟨2, 0, 0⟩, ⟨1, 0, 0⟩, Vec3.zero, []⟩,
       ⟨ManifoldType.plane, ⟨5, 0, 0⟩, ⟨3 / 5, 4 / 5, 0⟩, Vec3.zero, []⟩]).ms[1]? =
      some ⟨ManifoldType.plane, ⟨2, 0, 0⟩, ⟨1, 0, 0⟩, Vec3.zero, []⟩ ∧
    (createCylinderPrimitive
      ⟨ManifoldType.cylinder, ⟨0, 0, 0⟩, ⟨1, 0, 0⟩, ⟨1, 0, 0⟩, [⟨0, 0, 0⟩]⟩
      [⟨ManifoldType.plane, ⟨2, 0, 0⟩, ⟨1, 0, 0⟩, Vec3.zero, []⟩,
       ⟨ManifoldType.plane, ⟨5, 0, 0⟩, ⟨3 / 5, 4 / 5, 0⟩, Vec3.zero, []⟩]).ms[2]? =
      some ⟨ManifoldType.plane, ⟨5, 0, 0⟩, ⟨3 / 5, 4 / 5, 0⟩, Vec3.zero, []⟩ ∧
    ¬ parallelWithinCos ⟨1, 0, 0⟩ ⟨3 / 5, 4 / 5, 0⟩ (9 / 10) := by
  refine ⟨rfl, rfl, rfl, ?_⟩
  norm_num [parallelWithinCos, Vec3.dot, Vec3.normSq]
